import Mathlib

/-!
# DatabaseRecovery: connection manager and retry executor

A shallow embedding of `database/connection.go` (`InitDB`, `Reconnect`, `GetDB`) and of
`models/user.go` (`Retry`, `isRetryableError`).

The Go code talks to an outside world (the gorm/sql driver, the clock, the caller's context and
the caller's operation).  That world is an arbitrary state machine: a type `σ` of world states
and an `Env σ` of transition functions, one per external call.  Every function of the program
is a `Prog σ α`: it takes the program state (world, heap of `Database` objects, the global
`DbInstance`) and gives back an outcome, the new state and the list of external calls it made,
in the order it made them.  Log output (`log.Printf`, `log.Println`) is not modelled;
`log.Fatal` is, as the outcome `fatal`.
-/

namespace DatabaseRecovery

/-! ## Values -/

/-- A Go `error` value: either a plain error with its message, or an error built by
`fmt.Errorf` with the verb `%w`, which has its own formatted message and wraps an inner error. -/
inductive GoError where
  | plain (msg : String)
  | wrapped (msg : String) (inner : GoError)
  deriving DecidableEq

/-- The method `err.Error()`: the message of the error. -/
def GoError.Error : GoError → String
  | .plain msg => msg
  | .wrapped msg _ => msg

/-- The method `errors.Unwrap(err)`: the error wrapped with `%w`, when there is one. -/
def GoError.Unwrap : GoError → Option GoError
  | .plain _ => none
  | .wrapped _ inner => some inner

/-- The call `fmt.Errorf(pfx + "%w", err)`: the message is the formatted text followed by the
message of `err`, and the result wraps `err`. -/
def Errorf (pfx : String) (err : GoError) : GoError :=
  .wrapped (pfx ++ err.Error) err

/-- A `time.Duration`: a count of nanoseconds held in an `int64`. -/
abbrev Duration := Int

/-- The value an `int64` holds after an arithmetic result `x` (two's complement wrap-around). -/
def wrapInt64 (x : Int) : Int := (x + 2 ^ 63) % 2 ^ 64 - 2 ^ 63

/-- The Go product `d * time.Duration(k)` of two `int64` values. -/
def Duration.mul (d : Duration) (k : Int) : Duration := wrapInt64 (d * k)

/-- A `*gorm.DB` handle (non-nil), by identity. -/
abbrev GormDB := Nat

/-- A `*sql.DB` connection pool (non-nil), by identity. -/
abbrev SqlDB := Nat

/-- A Go result pair `(value, error)`: the value when the error is nil, the error otherwise. -/
inductive Result (α : Type) where
  | ok (v : α)
  | err (e : GoError)
  deriving DecidableEq

/-- The error of the pair is nil. -/
def Result.isOk {α : Type} : Result α → Bool
  | .ok _ => true
  | .err _ => false

/-- The struct `DBConfig`. -/
structure DBConfig where
  DSN : String
  MaxRetries : Int
  RetryInterval : Duration
  MaxIdleConns : Int
  MaxOpenConns : Int
  ConnMaxLifetime : Duration
  deriving DecidableEq

/-- The struct `Database`: the embedded `*gorm.DB` and the config it was built from. -/
structure Database where
  DB : GormDB
  config : DBConfig
  deriving DecidableEq

/-! ## The outside world -/

/-- The place of a `time.Sleep` call: `InitDB` (connection.go:42) or `Retry` (user.go:123). -/
inductive Site where
  | initDB
  | retry
  deriving DecidableEq

/-- One external call (or one call of `Reconnect`, one return of `GetDB`), with its result. -/
inductive Event where
  /-- The call `gorm.Open(postgres.Open(dsn), &gorm.Config{})` -/
  | gormOpen (dsn : String) (res : Result GormDB)
  /-- The call `db.DB()` on a gorm handle -/
  | dbDB (db : GormDB) (res : Result SqlDB)
  | setMaxIdleConns (sqlDB : SqlDB) (n : Int)
  | setMaxOpenConns (sqlDB : SqlDB) (n : Int)
  | setConnMaxLifetime (sqlDB : SqlDB) (d : Duration)
  /-- The call `sqlDB.Ping()` -/
  | ping (sqlDB : SqlDB) (res : Option GoError)
  /-- The call `sqlDB.Close()`, whose result the code drops -/
  | close (sqlDB : SqlDB)
  /-- The call `time.Sleep(d)` -/
  | sleep (site : Site) (d : Duration)
  /-- The check `ctx.Err()` -/
  | ctxErr (res : Option GoError)
  /-- The call `operation(db)` -/
  | operation (db : GormDB) (res : Option GoError)
  /-- The method `Reconnect` was entered on the `Database` at address `d` -/
  | reconnect (d : Nat)
  /-- The function `GetDB` returned `res` -/
  | getDBRet (res : Result GormDB)
  deriving DecidableEq

/-- The external calls of `connection.go`, as transitions of the world state `σ`. -/
structure Env (σ : Type) where
  gormOpen : String → σ → Result GormDB × σ
  dbDB : GormDB → σ → Result SqlDB × σ
  setMaxIdleConns : SqlDB → Int → σ → σ
  setMaxOpenConns : SqlDB → Int → σ → σ
  setConnMaxLifetime : SqlDB → Duration → σ → σ
  ping : SqlDB → σ → Option GoError × σ
  close : SqlDB → σ → σ
  sleep : Duration → σ → σ

/-! ## Program state and the program monad -/

/-- The program state: the world, the `Database` objects allocated so far (a pointer is an
index into `heap`), and the package variable `DbInstance` (`none` is the nil pointer). -/
structure State (σ : Type) where
  world : σ
  heap : List Database
  DbInstance : Option Nat

/-- How a call ends: it returns, the process exits through `log.Fatal`, or it panics. -/
inductive Outcome (α : Type) where
  | ret (a : α)
  | fatal (msg : String)
  | panicked (msg : String)
  deriving DecidableEq

/-- The result of running a piece of the program: outcome, final state, external calls made. -/
structure Run (σ α : Type) where
  out : Outcome α
  st : State σ
  ev : List Event

/-- A piece of the program. -/
def Prog (σ α : Type) : Type := State σ → Run σ α

/-- Return without any effect. -/
def Prog.pure {σ α : Type} (a : α) : Prog σ α := fun s => ⟨.ret a, s, []⟩

/-- Sequencing: run `m`; when it returns, run `f` on its value; the calls made are those of `m`
followed by those of `f`.  A fatal exit or a panic ends the run. -/
def Prog.bind {σ α β : Type} (m : Prog σ α) (f : α → Prog σ β) : Prog σ β := fun s =>
  match m s with
  | ⟨.ret a, s1, e1⟩ =>
    match f a s1 with
    | ⟨o, s2, e2⟩ => ⟨o, s2, e1 ++ e2⟩
  | ⟨.fatal msg, s1, e1⟩ => ⟨.fatal msg, s1, e1⟩
  | ⟨.panicked msg, s1, e1⟩ => ⟨.panicked msg, s1, e1⟩

instance {σ : Type} : Monad (Prog σ) where
  pure := Prog.pure
  bind := Prog.bind

/-- The exit of the process through `log.Fatal`. -/
def Prog.fatal {σ α : Type} (msg : String) : Prog σ α := fun s => ⟨.fatal msg, s, []⟩

/-- A run-time panic (nil pointer dereference). -/
def Prog.panicked {σ α : Type} (msg : String) : Prog σ α := fun s => ⟨.panicked msg, s, []⟩

/-- The run `r` with the events `e` put before its own. -/
def Run.pre {σ α : Type} (e : List Event) (r : Run σ α) : Run σ α := ⟨r.out, r.st, e ++ r.ev⟩

section Primitives
variable {σ : Type}

/-- The call `gorm.Open(postgres.Open(dsn), &gorm.Config{})`. -/
def gormOpen (env : Env σ) (dsn : String) : Prog σ (Result GormDB) := fun s =>
  match s with
  | ⟨w, heap, inst⟩ =>
    match env.gormOpen dsn w with
    | (res, w2) => ⟨.ret res, ⟨w2, heap, inst⟩, [.gormOpen dsn res]⟩

/-- The call `db.DB()`. -/
def dbDB (env : Env σ) (db : GormDB) : Prog σ (Result SqlDB) := fun s =>
  match s with
  | ⟨w, heap, inst⟩ =>
    match env.dbDB db w with
    | (res, w2) => ⟨.ret res, ⟨w2, heap, inst⟩, [.dbDB db res]⟩

/-- The call `sqlDB.SetMaxIdleConns(n)`. -/
def setMaxIdleConns (env : Env σ) (sqlDB : SqlDB) (n : Int) : Prog σ Unit := fun s =>
  match s with
  | ⟨w, heap, inst⟩ =>
    ⟨.ret (), ⟨env.setMaxIdleConns sqlDB n w, heap, inst⟩, [.setMaxIdleConns sqlDB n]⟩

/-- The call `sqlDB.SetMaxOpenConns(n)`. -/
def setMaxOpenConns (env : Env σ) (sqlDB : SqlDB) (n : Int) : Prog σ Unit := fun s =>
  match s with
  | ⟨w, heap, inst⟩ =>
    ⟨.ret (), ⟨env.setMaxOpenConns sqlDB n w, heap, inst⟩, [.setMaxOpenConns sqlDB n]⟩

/-- The call `sqlDB.SetConnMaxLifetime(d)`. -/
def setConnMaxLifetime (env : Env σ) (sqlDB : SqlDB) (d : Duration) : Prog σ Unit := fun s =>
  match s with
  | ⟨w, heap, inst⟩ =>
    ⟨.ret (), ⟨env.setConnMaxLifetime sqlDB d w, heap, inst⟩, [.setConnMaxLifetime sqlDB d]⟩

/-- The call `sqlDB.Ping()`. -/
def ping (env : Env σ) (sqlDB : SqlDB) : Prog σ (Option GoError) := fun s =>
  match s with
  | ⟨w, heap, inst⟩ =>
    match env.ping sqlDB w with
    | (res, w2) => ⟨.ret res, ⟨w2, heap, inst⟩, [.ping sqlDB res]⟩

/-- The call `sqlDB.Close()`; the code drops its result. -/
def close (env : Env σ) (sqlDB : SqlDB) : Prog σ Unit := fun s =>
  match s with
  | ⟨w, heap, inst⟩ => ⟨.ret (), ⟨env.close sqlDB w, heap, inst⟩, [.close sqlDB]⟩

/-- The call `time.Sleep(d)` made at `site`. -/
def sleep (env : Env σ) (site : Site) (d : Duration) : Prog σ Unit := fun s =>
  match s with
  | ⟨w, heap, inst⟩ => ⟨.ret (), ⟨env.sleep d w, heap, inst⟩, [.sleep site d]⟩

/-- The check of `ctx.Err()`.  The context is a read-only view of the world; the code reads it
twice in a row (`if ctx.Err() != nil { return ctx.Err() }`), and a context that has returned a
non-nil error returns the same error ever after, so the two reads are one. -/
def ctxErr (ctx : σ → Option GoError) : Prog σ (Option GoError) := fun s =>
  match ctx s.world with
  | res => ⟨.ret res, s, [.ctxErr res]⟩

/-- The call `operation(db)` of the caller's closure, which acts on the world only. -/
def invoke (operation : GormDB → σ → Option GoError × σ) (db : GormDB) :
    Prog σ (Option GoError) := fun s =>
  match s with
  | ⟨w, heap, inst⟩ =>
    match operation db w with
    | (res, w2) => ⟨.ret res, ⟨w2, heap, inst⟩, [.operation db res]⟩

/-- Read the package variable `DbInstance`. -/
def getDbInstance : Prog σ (Option Nat) := fun s => ⟨.ret s.DbInstance, s, []⟩

/-- Assign the package variable `DbInstance`. -/
def setDbInstance (p : Nat) : Prog σ Unit := fun s =>
  match s with
  | ⟨w, heap, _⟩ => ⟨.ret (), ⟨w, heap, some p⟩, []⟩

/-- The allocation `&Database{DB: db, config: config}`: a new object at the end of the heap. -/
def alloc (D : Database) : Prog σ Nat := fun s =>
  match s with
  | ⟨w, heap, inst⟩ => ⟨.ret heap.length, ⟨w, heap ++ [D], inst⟩, []⟩

/-- Read the object behind the pointer `d`; a pointer to nothing panics. -/
def deref (d : Nat) : Prog σ Database := fun s =>
  match s.heap[d]? with
  | some D => ⟨.ret D, s, []⟩
  | none => ⟨.panicked "invalid memory address or nil pointer dereference", s, []⟩

/-- The assignment `d.DB = db`. -/
def setDB (d : Nat) (db : GormDB) : Prog σ Unit := fun s =>
  match s with
  | ⟨w, heap, inst⟩ =>
    match heap[d]? with
    | some D => ⟨.ret (), ⟨w, heap.set d { D with DB := db }, inst⟩, []⟩
    | none => ⟨.panicked "invalid memory address or nil pointer dereference", s, []⟩

/-- Record an event of the program itself. -/
def emit (e : Event) : Prog σ Unit := fun s => ⟨.ret (), s, [e]⟩

end Primitives

/-! ## connection.go -/

section Connection
variable {σ : Type}

/-- The retry loop of `InitDB` (connection.go:36-43), entered with `rem` iterations left
(`rem = MaxRetries - i`) and loop variable `i`.  The value is what the variables `db, err` hold
after the loop: `last` when no iteration ran, else the result of the last `gorm.Open`. -/
def InitDB.connect (env : Env σ) (config : DBConfig) :
    Nat → Int → Option (Result GormDB) → Prog σ (Option (Result GormDB))
  | 0, _, last => pure last
  | rem + 1, i, _ => do
    let r ← gormOpen env config.DSN
    match r with
    | .ok db => pure (some (.ok db))
    | .err err => do
      sleep env .initDB (Duration.mul config.RetryInterval (i + 1))
      InitDB.connect env config rem (i + 1) (some (.err err))

/-- The part of `InitDB` after the loop has given a handle (connection.go:49-65): get the
pool, set its limits, ping it, then store and return the new `Database`. -/
def InitDB.configure (env : Env σ) (config : DBConfig) (db : GormDB) : Prog σ (Result Nat) := do
  let q ← dbDB env db
  match q with
  | .err err => pure (.err (Errorf "failed to get sql.DB: " err))
  | .ok sqlDB => do
    setMaxIdleConns env sqlDB config.MaxIdleConns
    setMaxOpenConns env sqlDB config.MaxOpenConns
    setConnMaxLifetime env sqlDB config.ConnMaxLifetime
    let p ← ping env sqlDB
    match p with
    | some err => pure (.err (Errorf "failed to ping database: " err))
    | none => do
      let inst ← alloc { DB := db, config := config }
      setDbInstance inst
      pure (.ok inst)

/-- The function `InitDB` (connection.go:31-66).  It returns the pointer to the new `Database`
or an error.  With `MaxRetries <= 0` the loop does not run, `db` and `err` are both nil and
`db.DB()` dereferences the nil handle. -/
def InitDB (env : Env σ) (config : DBConfig) : Prog σ (Result Nat) := do
  let r ← InitDB.connect env config config.MaxRetries.toNat 0 none
  match r with
  | some (.err err) =>
    pure (.err (Errorf ("failed to connect to database after " ++ toString config.MaxRetries
      ++ " retries: ") err))
  | none => Prog.panicked "invalid memory address or nil pointer dereference"
  | some (.ok db) => InitDB.configure env config db

/-- The method `(d *Database) Reconnect` (connection.go:69-84); `none` is the nil error.  The
run begins with the record of the call itself, the event `reconnect d`. -/
def Reconnect (env : Env σ) (d : Nat) : Prog σ (Option GoError) := do
  emit (.reconnect d)
  let D ← deref d
  let q ← dbDB env D.DB
  match q with
  | .err err => pure (some (Errorf "failed to get sql.DB: " err))
  | .ok sqlDB => do
    close env sqlDB
    let r ← InitDB env D.config
    match r with
    | .err err => pure (some (Errorf "reconnection failed: " err))
    | .ok newDB => do
      let N ← deref newDB
      setDB d N.DB
      pure none

/-- The health check of `GetDB` (connection.go:93-94): `true` when `db.DB()` fails or, that
having succeeded, `sqlDB.Ping()` fails (the `||` does not ping after a failed `db.DB()`). -/
def GetDB.unhealthy (env : Env σ) (db : GormDB) : Prog σ Bool := do
  let q ← dbDB env db
  match q with
  | .err _ => pure true
  | .ok sqlDB => do
    let p ← ping env sqlDB
    pure p.isSome

/-- The final `return DbInstance.DB, nil` of `GetDB`, which reads the package variable anew. -/
def GetDB.current : Prog σ (Result GormDB) := do
  let inst ← getDbInstance
  match inst with
  | none => Prog.panicked "invalid memory address or nil pointer dereference"
  | some d => do
    let D ← deref d
    pure (.ok D.DB)

/-- The body of `GetDB` (connection.go:87-103). -/
def GetDB.body (env : Env σ) : Prog σ (Result GormDB) := do
  let inst ← getDbInstance
  match inst with
  | none => Prog.fatal "Database not initialized"
  | some d => do
    let D ← deref d
    let bad ← GetDB.unhealthy env D.DB
    if bad then do
      let r ← Reconnect env d
      match r with
      | some err => pure (.err err)
      | none => GetDB.current
    else GetDB.current

/-- The function `GetDB`: its body, and the record of what it returned. -/
def GetDB (env : Env σ) : Prog σ (Result GormDB) := do
  let r ← GetDB.body env
  emit (.getDBRet r)
  pure r

end Connection

/-! ## user.go -/

section Models
variable {σ : Type}

/-- The function `isRetryableError` (user.go:130-133). -/
def isRetryableError (err : GoError) : Bool :=
  err.Error == "dial tcp: i/o timeout" || err.Error == "connection refused"

/-- The loop of `Retry` (user.go:96-124), entered with `rem` iterations left
(`rem = maxRetries - i`), loop variable `i`, the handle `db` and the variable `lastErr`.
The value is what `Retry` returns: the result of an early `return`, or `lastErr` when the
loop runs out. -/
def Retry.loop (env : Env σ) (ctx : σ → Option GoError)
    (operation : GormDB → σ → Option GoError × σ) (retryInterval : Duration) :
    Nat → Int → GormDB → Option GoError → Prog σ (Option GoError)
  | 0, _, _, lastErr => pure lastErr
  | rem + 1, i, db, _ => do
    let c ← ctxErr ctx
    match c with
    | some e => pure (some e)
    | none => do
      let r ← invoke operation db
      match r with
      | none => pure none
      | some err =>
        if !isRetryableError err then pure (some err)
        else do
          let inst ← getDbInstance
          match inst with
          | none => Prog.panicked "invalid memory address or nil pointer dereference"
          | some d => do
            let _ ← Reconnect env d
            let g ← GetDB env
            match g with
            | .err e => pure (some e)
            | .ok db2 => do
              sleep env .retry (Duration.mul retryInterval (i + 1))
              Retry.loop env ctx operation retryInterval rem (i + 1) db2 (some err)

/-- The function `Retry` (user.go:89-127); `none` is the nil error. -/
def Retry (env : Env σ) (ctx : σ → Option GoError)
    (operation : GormDB → σ → Option GoError × σ) (maxRetries : Int)
    (retryInterval : Duration) : Prog σ (Option GoError) := do
  let g ← GetDB env
  match g with
  | .err e => pure (some e)
  | .ok db => Retry.loop env ctx operation retryInterval maxRetries.toNat 0 db none

end Models

/-! ## Reading a run -/

/-- The results of the `gorm.Open` calls of a run, in order. -/
def openResults : List Event → List (Result GormDB)
  | [] => []
  | .gormOpen _ res :: es => res :: openResults es
  | _ :: es => openResults es

/-- The durations of the `time.Sleep` calls a run made at `site`, in order. -/
def waits (site : Site) : List Event → List Duration
  | [] => []
  | .sleep t d :: es => if t = site then d :: waits site es else waits site es
  | _ :: es => waits site es

/-- The results of the `ctx.Err()` checks of a run, in order. -/
def ctxResults : List Event → List (Option GoError)
  | [] => []
  | .ctxErr res :: es => res :: ctxResults es
  | _ :: es => ctxResults es

/-- The results of the invocations of the operation in a run, in order. -/
def opResults : List Event → List (Option GoError)
  | [] => []
  | .operation _ res :: es => res :: opResults es
  | _ :: es => opResults es

/-- The receivers of the `Reconnect` calls of a run, in order. -/
def reconnects : List Event → List Nat
  | [] => []
  | .reconnect d :: es => d :: reconnects es
  | _ :: es => reconnects es

/-- The values the `GetDB` calls of a run returned, in order. -/
def getDBResults : List Event → List (Result GormDB)
  | [] => []
  | .getDBRet res :: es => res :: getDBResults es
  | _ :: es => getDBResults es

/-- The pools closed by the `sqlDB.Close()` calls of a run, in order. -/
def closes : List Event → List SqlDB
  | [] => []
  | .close q :: es => q :: closes es
  | _ :: es => closes es

/-- The result of an invocation of the operation is an error that `isRetryableError`
accepts. -/
def retryableFailure (res : Option GoError) : Bool :=
  match res with
  | some e => isRetryableError e
  | none => false

/-- The event is a failed liveness probe: a `db.DB()` or a `sqlDB.Ping()` that gave an error. -/
def Event.failedProbe : Event → Bool
  | .dbDB _ (.err _) => true
  | .ping _ (some _) => true
  | _ => false

/-- The event is one that only the code of `Retry` itself produces: a context check, an
invocation of the operation, or a sleep at user.go:123. -/
def Event.ofRetry : Event → Bool
  | .ctxErr _ => true
  | .operation _ _ => true
  | .sleep .retry _ => true
  | _ => false

/-- The event is one that `InitDB` produces: a call to the driver or a sleep at
connection.go:42. -/
def Event.ofInitDB : Event → Bool
  | .gormOpen _ _ => true
  | .dbDB _ _ => true
  | .setMaxIdleConns _ _ => true
  | .setMaxOpenConns _ _ => true
  | .setConnMaxLifetime _ _ => true
  | .ping _ _ => true
  | .sleep .initDB _ => true
  | _ => false

/-- The events of `k` failed connection attempts of `InitDB` in a row, the first of them made
with loop variable `i`: each `gorm.Open` that failed with the next error of the list, followed
by the sleep of `RetryInterval * (i + 1)`. -/
def failedAttempts (config : DBConfig) : Int → List GoError → List Event
  | _, [] => []
  | i, e :: es =>
    .gormOpen config.DSN (.err e) :: .sleep .initDB (Duration.mul config.RetryInterval (i + 1))
      :: failedAttempts config (i + 1) es

/-- The state right after the call `operation(db)` made in state `s`. -/
def afterInvoke {σ : Type} (operation : GormDB → σ → Option GoError × σ) (db : GormDB)
    (s : State σ) : State σ :=
  { s with world := (operation db s.world).2 }

/-- The state right after the call `time.Sleep(d)` made in state `s`. -/
def afterSleep {σ : Type} (env : Env σ) (d : Duration) (s : State σ) : State σ :=
  { s with world := env.sleep d s.world }

/-- The state right after `db.DB()` has given the pool `q` and `q.Close()` has been called,
both in state `s`. -/
def afterClose {σ : Type} (env : Env σ) (db : GormDB) (q : SqlDB) (s : State σ) : State σ :=
  { s with world := env.close q (env.dbDB db s.world).2 }

/-- The durations of `k` backoff sleeps in a row, the first of them made with loop variable
`i`: `interval * (i + 1)`, `interval * (i + 2)`, and so on, each an `int64` product. -/
def backoffWaits (interval : Duration) : Int → Nat → List Duration
  | _, 0 => []
  | i, k + 1 => Duration.mul interval (i + 1) :: backoffWaits interval (i + 1) k

/-- The manager is established: `DbInstance` points to the `Database` object `D`. -/
def Established {σ : Type} (s : State σ) (d : Nat) (D : Database) : Prop :=
  s.DbInstance = some d ∧ s.heap[d]? = some D

/-- The manager is established and the config it stores allows at least one attempt. -/
def Ready {σ : Type} (s : State σ) : Prop :=
  ∃ d D, Established s d D ∧ 1 ≤ D.config.MaxRetries

/-! ## A scripted world, for concrete runs -/

/-- A world that answers from scripts: each list holds the results of the coming calls of one
kind, in order.  When a script has run out, `gorm.Open` fails with "connection refused",
`db.DB()` gives the pool numbered like the handle, `Ping` succeeds and the operation succeeds. -/
structure Script where
  opens : List (Result GormDB)
  dbs : List (Result SqlDB)
  pings : List (Option GoError)
  ops : List (Option GoError)
  cancelled : Bool
  deriving DecidableEq

/-- The external calls in the scripted world. -/
def Script.env : Env Script where
  gormOpen _ w :=
    match w.opens with
    | [] => (.err (.plain "connection refused"), w)
    | r :: rest => (r, { w with opens := rest })
  dbDB db w :=
    match w.dbs with
    | [] => (.ok db, w)
    | r :: rest => (r, { w with dbs := rest })
  setMaxIdleConns _ _ w := w
  setMaxOpenConns _ _ w := w
  setConnMaxLifetime _ _ w := w
  ping _ w :=
    match w.pings with
    | [] => (none, w)
    | r :: rest => (r, { w with pings := rest })
  close _ w := w
  sleep _ w := w

/-- The context of the scripted world: cancelled or not, for good. -/
def Script.ctx (w : Script) : Option GoError :=
  if w.cancelled then some (.plain "context canceled") else none

/-- The operation of the scripted world. -/
def Script.operation (_ : GormDB) (w : Script) : Option GoError × Script :=
  match w.ops with
  | [] => (none, w)
  | r :: rest => (r, { w with ops := rest })

/-- A healthy scripted world where nothing is scripted. -/
def Script.quiet : Script := ⟨[], [], [], [], false⟩

/-- The config of `main.go` with three attempts and a base interval of one second. -/
def demoConfig : DBConfig :=
  { DSN := "dsn", MaxRetries := 3, RetryInterval := 1000000000, MaxIdleConns := 2,
    MaxOpenConns := 5, ConnMaxLifetime := 3600000000000 }

/-- An established manager over the scripted world `w`: one `Database` with handle 7. -/
def demoState (w : Script) : State Script :=
  { world := w, heap := [{ DB := 7, config := demoConfig }], DbInstance := some 0 }

/-- The state before `InitDB` has ever run, over the scripted world `w`. -/
def freshState (w : Script) : State Script :=
  { world := w, heap := [], DbInstance := none }

/-! ## Basic facts about runs -/

section Basic
variable {σ α β : Type}

@[simp] theorem Run.pre_out (e : List Event) (r : Run σ α) : (r.pre e).out = r.out := rfl

@[simp] theorem Run.pre_st (e : List Event) (r : Run σ α) : (r.pre e).st = r.st := rfl

@[simp] theorem Run.pre_ev (e : List Event) (r : Run σ α) : (r.pre e).ev = e ++ r.ev := rfl

@[simp] theorem Run.pre_nil (r : Run σ α) : r.pre [] = r := rfl

@[simp] theorem Run.pre_pre (e1 e2 : List Event) (r : Run σ α) :
    (r.pre e2).pre e1 = r.pre (e1 ++ e2) := by
  simp [Run.pre]

@[simp] theorem Run.pre_mk (e : List Event) (o : Outcome α) (s : State σ) (e2 : List Event) :
    (Run.mk o s e2).pre e = ⟨o, s, e ++ e2⟩ := rfl

@[simp] theorem pure_apply (a : α) (s : State σ) : (pure a : Prog σ α) s = ⟨.ret a, s, []⟩ := rfl

theorem bind_apply (m : Prog σ α) (f : α → Prog σ β) (s : State σ) :
    (m >>= f) s =
      match (m s).out with
      | .ret a => (f a (m s).st).pre (m s).ev
      | .fatal msg => ⟨.fatal msg, (m s).st, (m s).ev⟩
      | .panicked msg => ⟨.panicked msg, (m s).st, (m s).ev⟩ := by
  show Prog.bind m f s = _
  unfold Prog.bind
  rcases m s with ⟨o, s1, e1⟩
  cases o <;> rfl

theorem bind_ret {m : Prog σ α} {s : State σ} {a : α} (h : (m s).out = .ret a)
    (f : α → Prog σ β) : (m >>= f) s = (f a (m s).st).pre (m s).ev := by
  rw [bind_apply, h]

@[simp] theorem fatal_apply (msg : String) (s : State σ) :
    (Prog.fatal msg : Prog σ α) s = ⟨.fatal msg, s, []⟩ := rfl

@[simp] theorem panicked_apply (msg : String) (s : State σ) :
    (Prog.panicked msg : Prog σ α) s = ⟨.panicked msg, s, []⟩ := rfl

@[simp] theorem gormOpen_apply (env : Env σ) (dsn : String) (s : State σ) :
    gormOpen env dsn s = ⟨.ret (env.gormOpen dsn s.world).1,
      { s with world := (env.gormOpen dsn s.world).2 },
      [.gormOpen dsn (env.gormOpen dsn s.world).1]⟩ := rfl

@[simp] theorem dbDB_apply (env : Env σ) (db : GormDB) (s : State σ) :
    dbDB env db s = ⟨.ret (env.dbDB db s.world).1,
      { s with world := (env.dbDB db s.world).2 }, [.dbDB db (env.dbDB db s.world).1]⟩ := rfl

@[simp] theorem setMaxIdleConns_apply (env : Env σ) (q : SqlDB) (n : Int) (s : State σ) :
    setMaxIdleConns env q n s = ⟨.ret (), { s with world := env.setMaxIdleConns q n s.world },
      [.setMaxIdleConns q n]⟩ := rfl

@[simp] theorem setMaxOpenConns_apply (env : Env σ) (q : SqlDB) (n : Int) (s : State σ) :
    setMaxOpenConns env q n s = ⟨.ret (), { s with world := env.setMaxOpenConns q n s.world },
      [.setMaxOpenConns q n]⟩ := rfl

@[simp] theorem setConnMaxLifetime_apply (env : Env σ) (q : SqlDB) (d : Duration)
    (s : State σ) :
    setConnMaxLifetime env q d s = ⟨.ret (),
      { s with world := env.setConnMaxLifetime q d s.world }, [.setConnMaxLifetime q d]⟩ := rfl

@[simp] theorem ping_apply (env : Env σ) (q : SqlDB) (s : State σ) :
    ping env q s = ⟨.ret (env.ping q s.world).1, { s with world := (env.ping q s.world).2 },
      [.ping q (env.ping q s.world).1]⟩ := rfl

@[simp] theorem close_apply (env : Env σ) (q : SqlDB) (s : State σ) :
    close env q s = ⟨.ret (), { s with world := env.close q s.world }, [.close q]⟩ := rfl

@[simp] theorem sleep_apply (env : Env σ) (site : Site) (d : Duration) (s : State σ) :
    sleep env site d s = ⟨.ret (), { s with world := env.sleep d s.world }, [.sleep site d]⟩ :=
  rfl

@[simp] theorem ctxErr_apply (ctx : σ → Option GoError) (s : State σ) :
    ctxErr ctx s = ⟨.ret (ctx s.world), s, [.ctxErr (ctx s.world)]⟩ := rfl

@[simp] theorem invoke_apply (operation : GormDB → σ → Option GoError × σ) (db : GormDB)
    (s : State σ) :
    invoke operation db s = ⟨.ret (operation db s.world).1,
      { s with world := (operation db s.world).2 },
      [.operation db (operation db s.world).1]⟩ := rfl

@[simp] theorem getDbInstance_apply (s : State σ) :
    (getDbInstance : Prog σ (Option Nat)) s = ⟨.ret s.DbInstance, s, []⟩ := rfl

@[simp] theorem setDbInstance_apply (p : Nat) (s : State σ) :
    (setDbInstance p : Prog σ Unit) s = ⟨.ret (), { s with DbInstance := some p }, []⟩ := rfl

@[simp] theorem alloc_apply (D : Database) (s : State σ) :
    (alloc D : Prog σ Nat) s = ⟨.ret s.heap.length, { s with heap := s.heap ++ [D] }, []⟩ := rfl

@[simp] theorem emit_apply (e : Event) (s : State σ) :
    (emit e : Prog σ Unit) s = ⟨.ret (), s, [e]⟩ := rfl

theorem deref_of_get {s : State σ} {d : Nat} {D : Database} (h : s.heap[d]? = some D) :
    (deref d : Prog σ Database) s = ⟨.ret D, s, []⟩ := by
  simp [deref, h]

theorem setDB_of_get {s : State σ} {d : Nat} {D : Database} (h : s.heap[d]? = some D)
    (db : GormDB) :
    (setDB d db : Prog σ Unit) s
      = ⟨.ret (), { s with heap := s.heap.set d { D with DB := db } }, []⟩ := by
  cases s
  simp only at h
  simp [setDB, h]

end Basic

/-! ## Facts about `GetDB` -/

section GetDBFacts
variable {σ : Type}

theorem unhealthy_apply (env : Env σ) (db : GormDB) (s : State σ) :
    GetDB.unhealthy env db s =
      match (env.dbDB db s.world).1 with
      | .err _ => ⟨.ret true, { s with world := (env.dbDB db s.world).2 },
          [.dbDB db (env.dbDB db s.world).1]⟩
      | .ok q => ⟨.ret (env.ping q (env.dbDB db s.world).2).1.isSome,
          { s with world := (env.ping q (env.dbDB db s.world).2).2 },
          [.dbDB db (env.dbDB db s.world).1, .ping q (env.ping q (env.dbDB db s.world).2).1]⟩ := by
  unfold GetDB.unhealthy
  rw [bind_apply]
  simp only [dbDB_apply]
  cases h : (env.dbDB db s.world).1 with
  | err e => simp
  | ok q => simp [bind_apply]

theorem unhealthy_ret (env : Env σ) (db : GormDB) (s : State σ) :
    ∃ b, (GetDB.unhealthy env db s).out = .ret b := by
  rw [unhealthy_apply]
  cases (env.dbDB db s.world).1 <;> simp

theorem unhealthy_heap (env : Env σ) (db : GormDB) (s : State σ) :
    (GetDB.unhealthy env db s).st.heap = s.heap := by
  rw [unhealthy_apply]
  cases (env.dbDB db s.world).1 <;> simp

theorem unhealthy_inst (env : Env σ) (db : GormDB) (s : State σ) :
    (GetDB.unhealthy env db s).st.DbInstance = s.DbInstance := by
  rw [unhealthy_apply]
  cases (env.dbDB db s.world).1 <;> simp

theorem current_of_established {s : State σ} {d : Nat} {D : Database}
    (h : Established s d D) :
    (GetDB.current : Prog σ (Result GormDB)) s = ⟨.ret (.ok D.DB), s, []⟩ := by
  unfold GetDB.current
  rw [bind_apply]
  simp [h.1, bind_apply, deref_of_get h.2]

end GetDBFacts

/-! ## Reading a run: projections and concatenation -/

section Projections

@[simp] theorem openResults_append (a b : List Event) :
    openResults (a ++ b) = openResults a ++ openResults b := by
  induction a with
  | nil => rfl
  | cons e es ih => cases e <;> simp [openResults, ih]

@[simp] theorem waits_append (site : Site) (a b : List Event) :
    waits site (a ++ b) = waits site a ++ waits site b := by
  induction a with
  | nil => rfl
  | cons e es ih =>
    cases e <;> simp [waits, ih]
    split <;> simp

@[simp] theorem ctxResults_append (a b : List Event) :
    ctxResults (a ++ b) = ctxResults a ++ ctxResults b := by
  induction a with
  | nil => rfl
  | cons e es ih => cases e <;> simp [ctxResults, ih]

@[simp] theorem opResults_append (a b : List Event) :
    opResults (a ++ b) = opResults a ++ opResults b := by
  induction a with
  | nil => rfl
  | cons e es ih => cases e <;> simp [opResults, ih]

@[simp] theorem reconnects_append (a b : List Event) :
    reconnects (a ++ b) = reconnects a ++ reconnects b := by
  induction a with
  | nil => rfl
  | cons e es ih => cases e <;> simp [reconnects, ih]

@[simp] theorem getDBResults_append (a b : List Event) :
    getDBResults (a ++ b) = getDBResults a ++ getDBResults b := by
  induction a with
  | nil => rfl
  | cons e es ih => cases e <;> simp [getDBResults, ih]

@[simp] theorem closes_append (a b : List Event) :
    closes (a ++ b) = closes a ++ closes b := by
  induction a with
  | nil => rfl
  | cons e es ih => cases e <;> simp [closes, ih]

/-- A run made of `InitDB` events only has no event of any other kind. -/
theorem ofInitDB_projections {l : List Event} (h : ∀ e ∈ l, e.ofInitDB = true) :
    reconnects l = [] ∧ getDBResults l = [] ∧ opResults l = [] ∧ ctxResults l = []
      ∧ waits .retry l = [] ∧ closes l = [] ∧ ∀ e ∈ l, e.ofRetry = false := by
  induction l with
  | nil => simp [reconnects, getDBResults, opResults, ctxResults, waits, closes]
  | cons e es ih =>
    have he : e.ofInitDB = true := h e (List.mem_cons_self _ _)
    obtain ⟨h1, h2, h3, h4, h5, h6, h7⟩ := ih (fun x hx => h x (List.mem_cons_of_mem _ hx))
    clear h ih
    cases e with
    | sleep site d =>
      cases site
      · simp [reconnects, getDBResults, opResults, ctxResults, waits, closes, Event.ofRetry,
          h1, h2, h3, h4, h5, h6]
        exact h7
      · simp [Event.ofInitDB] at he
    | _ =>
      first
        | (simp [Event.ofInitDB] at he; done)
        | (simp [reconnects, getDBResults, opResults, ctxResults, waits, closes, Event.ofRetry,
            h1, h2, h3, h4, h5, h6]
           exact h7)

/-- A run without events of `Retry` has no context check, no invocation and no wait of
`Retry`. -/
theorem not_ofRetry_projections {l : List Event} (h : ∀ e ∈ l, e.ofRetry = false) :
    opResults l = [] ∧ ctxResults l = [] ∧ waits .retry l = [] := by
  induction l with
  | nil => simp [opResults, ctxResults, waits]
  | cons e es ih =>
    have he : e.ofRetry = false := h e (List.mem_cons_self _ _)
    obtain ⟨h1, h2, h3⟩ := ih (fun x hx => h x (List.mem_cons_of_mem _ hx))
    clear h ih
    cases e with
    | sleep site d =>
      cases site
      · simp [opResults, ctxResults, waits, h1, h2, h3]
      · simp [Event.ofRetry] at he
    | _ =>
      first
        | (simp [Event.ofRetry] at he; done)
        | simp [opResults, ctxResults, waits, h1, h2, h3]

end Projections

/-! ## Facts about `InitDB` -/

section InitDBFacts
variable {σ : Type}

theorem connect_zero (env : Env σ) (config : DBConfig) (i : Int)
    (last : Option (Result GormDB)) (s : State σ) :
    InitDB.connect env config 0 i last s = ⟨.ret last, s, []⟩ := rfl

theorem connect_succ (env : Env σ) (config : DBConfig) (rem : Nat) (i : Int)
    (last : Option (Result GormDB)) (s : State σ) :
    InitDB.connect env config (rem + 1) i last s =
      match (env.gormOpen config.DSN s.world).1 with
      | .ok db => ⟨.ret (some (.ok db)), { s with world := (env.gormOpen config.DSN s.world).2 },
          [.gormOpen config.DSN (.ok db)]⟩
      | .err e =>
        (InitDB.connect env config rem (i + 1) (some (.err e))
          { s with
            world := env.sleep (Duration.mul config.RetryInterval (i + 1))
              (env.gormOpen config.DSN s.world).2 }).pre
          [.gormOpen config.DSN (.err e),
            .sleep .initDB (Duration.mul config.RetryInterval (i + 1))] := by
  rw [InitDB.connect, bind_apply]
  simp only [gormOpen_apply]
  cases h : (env.gormOpen config.DSN s.world).1 with
  | ok db => simp
  | err e => simp [bind_apply]

theorem connect_frame (env : Env σ) (config : DBConfig) (rem : Nat) :
    ∀ (i : Int) (last : Option (Result GormDB)) (s : State σ),
      (InitDB.connect env config rem i last s).st.heap = s.heap
      ∧ (InitDB.connect env config rem i last s).st.DbInstance = s.DbInstance
      ∧ (∀ e ∈ (InitDB.connect env config rem i last s).ev, e.ofInitDB = true)
      ∧ ∃ x, (InitDB.connect env config rem i last s).out = .ret x
          ∧ (0 < rem → ∃ r, x = some r) := by
  induction rem with
  | zero => intro i last s; simp [connect_zero]
  | succ rem ih =>
    intro i last s
    rw [connect_succ]
    cases h : (env.gormOpen config.DSN s.world).1 with
    | ok db => simp [Event.ofInitDB]
    | err e =>
      obtain ⟨h1, h2, h3, x, h4, h5⟩ := ih (i + 1) (some (.err e))
        { s with
          world := env.sleep (Duration.mul config.RetryInterval (i + 1))
            (env.gormOpen config.DSN s.world).2 }
      simp only [Run.pre_st, Run.pre_out, Run.pre_ev]
      refine ⟨h1, h2, ?_, x, h4, ?_⟩
      · intro ev hev
        simp only [List.mem_append, List.mem_cons, List.not_mem_nil, or_false] at hev
        rcases hev with (hev | hev) | hev
        · subst hev; rfl
        · subst hev; rfl
        · exact h3 ev hev
      · intro _
        cases rem with
        | zero => rw [connect_zero] at h4; simp at h4; exact ⟨_, h4.symm⟩
        | succ k => exact h5 (Nat.succ_pos k)

/-- When the loop of `InitDB` ends with a handle, that handle is the result of the last
`gorm.Open` of the run (or the loop did not run at all). -/
theorem connect_ok_last (env : Env σ) (config : DBConfig) (rem : Nat) :
    ∀ (i : Int) (last : Option (Result GormDB)) (s : State σ) (db : GormDB),
      (InitDB.connect env config rem i last s).out = .ret (some (.ok db)) →
      0 < rem →
      (openResults (InitDB.connect env config rem i last s).ev).getLast? = some (.ok db) := by
  induction rem with
  | zero => intro i last s db _ h; omega
  | succ rem ih =>
    intro i last s db hout _
    rw [connect_succ] at hout ⊢
    cases h : (env.gormOpen config.DSN s.world).1 with
    | ok db2 =>
      rw [h] at hout
      simp only [Outcome.ret.injEq, Option.some.injEq, Result.ok.injEq] at hout
      simp [openResults, hout]
    | err e =>
      rw [h] at hout
      simp only [Run.pre_out] at hout
      simp only [Run.pre_ev, openResults_append]
      cases rem with
      | zero => rw [connect_zero] at hout; simp at hout
      | succ k =>
        have := ih _ _ _ db hout (Nat.succ_pos k)
        rw [List.getLast?_append, this]
        rfl

/-- When every `gorm.Open` of the loop of `InitDB` fails, the loop makes `rem` attempts, each
followed by its sleep, and ends with the error of the last attempt. -/
theorem connect_all_fail (env : Env σ) (config : DBConfig) (rem : Nat) :
    ∀ (i : Int) (last : Option (Result GormDB)) (s : State σ),
      (∀ r ∈ openResults (InitDB.connect env config rem i last s).ev, ∃ e, r = .err e) →
      ∃ errs : List GoError, errs.length = rem
        ∧ (InitDB.connect env config rem i last s).ev = failedAttempts config i errs
        ∧ (InitDB.connect env config rem i last s).out
            = .ret (match errs.getLast? with
                    | some e => some (.err e)
                    | none => last) := by
  induction rem with
  | zero => intro i last s _; exact ⟨[], rfl, rfl, rfl⟩
  | succ rem ih =>
    intro i last s hall
    rw [connect_succ] at hall ⊢
    cases h : (env.gormOpen config.DSN s.world).1 with
    | ok db =>
      rw [h] at hall
      have := hall (.ok db) (by simp [openResults])
      simp at this
    | err e =>
      rw [h] at hall
      simp only [Run.pre_ev, openResults_append] at hall
      obtain ⟨errs, hlen, hev, hout⟩ := ih (i + 1) (some (.err e)) _
        (fun r hr => hall r (List.mem_append_right _ hr))
      refine ⟨e :: errs, by simp [hlen], ?_, ?_⟩
      · simp only [Run.pre_ev, hev, failedAttempts]
        rfl
      · simp only [Run.pre_out, hout]
        cases errs with
        | nil => rfl
        | cons e2 es =>
          rw [List.getLast?_cons_cons]
          cases hl : (e2 :: es).getLast? with
          | none => simp at hl
          | some x => rfl

end InitDBFacts

section InitDBFacts2
variable {σ : Type}

theorem configure_apply (env : Env σ) (config : DBConfig) (db : GormDB) (s : State σ) :
    InitDB.configure env config db s =
      match (env.dbDB db s.world).1 with
      | .err e => ⟨.ret (.err (Errorf "failed to get sql.DB: " e)),
          { s with world := (env.dbDB db s.world).2 }, [.dbDB db (.err e)]⟩
      | .ok q =>
        match (env.ping q (env.setConnMaxLifetime q config.ConnMaxLifetime
            (env.setMaxOpenConns q config.MaxOpenConns
              (env.setMaxIdleConns q config.MaxIdleConns (env.dbDB db s.world).2)))).1 with
        | some e => ⟨.ret (.err (Errorf "failed to ping database: " e)),
            { s with
              world := (env.ping q (env.setConnMaxLifetime q config.ConnMaxLifetime
                (env.setMaxOpenConns q config.MaxOpenConns
                  (env.setMaxIdleConns q config.MaxIdleConns (env.dbDB db s.world).2)))).2 },
            [.dbDB db (.ok q), .setMaxIdleConns q config.MaxIdleConns,
              .setMaxOpenConns q config.MaxOpenConns,
              .setConnMaxLifetime q config.ConnMaxLifetime, .ping q (some e)]⟩
        | none => ⟨.ret (.ok s.heap.length),
            { world := (env.ping q (env.setConnMaxLifetime q config.ConnMaxLifetime
                (env.setMaxOpenConns q config.MaxOpenConns
                  (env.setMaxIdleConns q config.MaxIdleConns (env.dbDB db s.world).2)))).2,
              heap := s.heap ++ [{ DB := db, config := config }],
              DbInstance := some s.heap.length },
            [.dbDB db (.ok q), .setMaxIdleConns q config.MaxIdleConns,
              .setMaxOpenConns q config.MaxOpenConns,
              .setConnMaxLifetime q config.ConnMaxLifetime, .ping q none]⟩ := by
  unfold InitDB.configure
  rw [bind_apply]
  simp only [dbDB_apply]
  cases h : (env.dbDB db s.world).1 with
  | err e => simp
  | ok q =>
    simp only [bind_apply, setMaxIdleConns_apply, setMaxOpenConns_apply,
      setConnMaxLifetime_apply, ping_apply, Run.pre_out, Run.pre_st, Run.pre_ev]
    cases h2 : (env.ping q (env.setConnMaxLifetime q config.ConnMaxLifetime
            (env.setMaxOpenConns q config.MaxOpenConns
              (env.setMaxIdleConns q config.MaxIdleConns (env.dbDB db s.world).2)))).1 with
    | some e => simp [Run.pre]
    | none => simp [Run.pre, bind_apply]

theorem configure_facts (env : Env σ) (config : DBConfig) (db : GormDB) (s : State σ) :
    (∃ r, (InitDB.configure env config db s).out = .ret r)
    ∧ (∀ p, (InitDB.configure env config db s).out = .ret (.ok p) →
        p = s.heap.length
        ∧ (InitDB.configure env config db s).st.heap = s.heap ++ [{ DB := db, config := config }]
        ∧ (InitDB.configure env config db s).st.DbInstance = some p)
    ∧ (∀ e, (InitDB.configure env config db s).out = .ret (.err e) →
        (InitDB.configure env config db s).st.heap = s.heap
        ∧ (InitDB.configure env config db s).st.DbInstance = s.DbInstance)
    ∧ (∀ e ∈ (InitDB.configure env config db s).ev, e.ofInitDB = true)
    ∧ openResults (InitDB.configure env config db s).ev = [] := by
  rw [configure_apply]
  cases h : (env.dbDB db s.world).1 with
  | err e => simp [Event.ofInitDB, openResults]
  | ok q =>
    simp only []
    cases h2 : (env.ping q (env.setConnMaxLifetime q config.ConnMaxLifetime
            (env.setMaxOpenConns q config.MaxOpenConns
              (env.setMaxIdleConns q config.MaxIdleConns (env.dbDB db s.world).2)))).1 with
    | some e => simp [Event.ofInitDB, openResults]
    | none =>
      refine ⟨⟨_, rfl⟩, ?_, ?_, ?_, ?_⟩
      · intro p hp
        simp only [Outcome.ret.injEq, Result.ok.injEq] at hp
        subst hp
        exact ⟨rfl, rfl, rfl⟩
      · intro e he; simp at he
      · simp [Event.ofInitDB]
      · simp [openResults]

/-- The three ways `InitDB` ends after its loop has ended. -/
theorem InitDB_apply (env : Env σ) (config : DBConfig) (s : State σ) :
    InitDB env config s =
      match (InitDB.connect env config config.MaxRetries.toNat 0 none s).out with
      | .ret (some (.err e)) =>
        ⟨.ret (.err (Errorf ("failed to connect to database after "
            ++ toString config.MaxRetries ++ " retries: ") e)),
          (InitDB.connect env config config.MaxRetries.toNat 0 none s).st,
          (InitDB.connect env config config.MaxRetries.toNat 0 none s).ev⟩
      | .ret none =>
        ⟨.panicked "invalid memory address or nil pointer dereference",
          (InitDB.connect env config config.MaxRetries.toNat 0 none s).st,
          (InitDB.connect env config config.MaxRetries.toNat 0 none s).ev⟩
      | .ret (some (.ok db)) =>
        (InitDB.configure env config db
          (InitDB.connect env config config.MaxRetries.toNat 0 none s).st).pre
          (InitDB.connect env config config.MaxRetries.toNat 0 none s).ev
      | .fatal msg => ⟨.fatal msg,
          (InitDB.connect env config config.MaxRetries.toNat 0 none s).st,
          (InitDB.connect env config config.MaxRetries.toNat 0 none s).ev⟩
      | .panicked msg => ⟨.panicked msg,
          (InitDB.connect env config config.MaxRetries.toNat 0 none s).st,
          (InitDB.connect env config config.MaxRetries.toNat 0 none s).ev⟩ := by
  unfold InitDB
  rw [bind_apply]
  rcases (InitDB.connect env config config.MaxRetries.toNat 0 none s).out with
    (_ | (_ | _)) | _ | _ <;> simp [Run.pre]

theorem InitDB_facts (env : Env σ) (config : DBConfig) (s : State σ) :
    (1 ≤ config.MaxRetries → ∃ r, (InitDB env config s).out = .ret r)
    ∧ (∀ p, (InitDB env config s).out = .ret (.ok p) →
        1 ≤ config.MaxRetries ∧ p = s.heap.length
        ∧ ∃ db, (InitDB env config s).st.heap = s.heap ++ [{ DB := db, config := config }]
          ∧ (InitDB env config s).st.DbInstance = some p
          ∧ (openResults (InitDB env config s).ev).getLast? = some (.ok db))
    ∧ (∀ e, (InitDB env config s).out = .ret (.err e) →
        (InitDB env config s).st.heap = s.heap
        ∧ (InitDB env config s).st.DbInstance = s.DbInstance)
    ∧ (∀ e ∈ (InitDB env config s).ev, e.ofInitDB = true) := by
  obtain ⟨c1, c2, c3, x, c4, c5⟩ := connect_frame env config config.MaxRetries.toNat 0 none s
  have hlast := connect_ok_last env config config.MaxRetries.toNat 0 none s
  rw [InitDB_apply]
  rw [c4] at hlast ⊢
  rcases x with _ | (db | e)
  · -- the loop did not run
    have hz : ¬ (0 < config.MaxRetries.toNat) := by
      intro hpos
      obtain ⟨r, hr⟩ := c5 hpos
      simp at hr
    refine ⟨?_, ?_, ?_, ?_⟩
    · intro h1
      exact absurd (by omega) hz
    · intro p hp; simp at hp
    · intro e he; simp at he
    · exact c3
  · -- the loop gave a handle
    obtain ⟨f1, f2, f3, f4, f5⟩ := configure_facts env config db
      (InitDB.connect env config config.MaxRetries.toNat 0 none s).st
    have hpos : 0 < config.MaxRetries.toNat := by
      by_contra hn
      have hz : config.MaxRetries.toNat = 0 := by omega
      rw [hz, connect_zero] at c4
      simp at c4
    simp only [Run.pre_out, Run.pre_st, Run.pre_ev]
    refine ⟨fun _ => f1, ?_, ?_, ?_⟩
    · intro p hp
      obtain ⟨g1, g2, g3⟩ := f2 p hp
      refine ⟨by omega, by rw [g1, c1], db, by rw [g2, c1], g3, ?_⟩
      rw [openResults_append, f5, List.append_nil]
      exact hlast db rfl hpos
    · intro e he
      obtain ⟨g1, g2⟩ := f3 e he
      exact ⟨by rw [g1, c1], by rw [g2, c2]⟩
    · intro e he
      rcases List.mem_append.1 he with he | he
      · exact c3 e he
      · exact f4 e he
  · -- the loop ended on a failed attempt
    refine ⟨fun _ => ⟨_, rfl⟩, ?_, ?_, c3⟩
    · intro p hp; simp at hp
    · intro e2 _; exact ⟨c1, c2⟩

end InitDBFacts2

/-! ## Facts about `Reconnect` -/

section ReconnectFacts
variable {σ : Type}

/-- The run of `Reconnect` up to the outcome of `InitDB`. -/
theorem Reconnect_apply (env : Env σ) (d : Nat) (D : Database) (s : State σ)
    (h : s.heap[d]? = some D) :
    Reconnect env d s =
      match (env.dbDB D.DB s.world).1 with
      | .err e => ⟨.ret (some (Errorf "failed to get sql.DB: " e)),
          { s with world := (env.dbDB D.DB s.world).2 }, [.reconnect d, .dbDB D.DB (.err e)]⟩
      | .ok q =>
        match (InitDB env D.config
            { s with world := env.close q (env.dbDB D.DB s.world).2 }).out with
        | .ret (.err e) => ⟨.ret (some (Errorf "reconnection failed: " e)),
            (InitDB env D.config { s with world := env.close q (env.dbDB D.DB s.world).2 }).st,
            [.reconnect d, .dbDB D.DB (.ok q), .close q] ++
              (InitDB env D.config
                { s with world := env.close q (env.dbDB D.DB s.world).2 }).ev⟩
        | .ret (.ok p) =>
          ((deref p >>= fun N => setDB d N.DB >>= fun _ => pure none)
            (InitDB env D.config
              { s with world := env.close q (env.dbDB D.DB s.world).2 }).st).pre
            ([.reconnect d, .dbDB D.DB (.ok q), .close q] ++
              (InitDB env D.config
                { s with world := env.close q (env.dbDB D.DB s.world).2 }).ev)
        | .fatal msg => ⟨.fatal msg,
            (InitDB env D.config { s with world := env.close q (env.dbDB D.DB s.world).2 }).st,
            [.reconnect d, .dbDB D.DB (.ok q), .close q] ++
              (InitDB env D.config
                { s with world := env.close q (env.dbDB D.DB s.world).2 }).ev⟩
        | .panicked msg => ⟨.panicked msg,
            (InitDB env D.config { s with world := env.close q (env.dbDB D.DB s.world).2 }).st,
            [.reconnect d, .dbDB D.DB (.ok q), .close q] ++
              (InitDB env D.config
                { s with world := env.close q (env.dbDB D.DB s.world).2 }).ev⟩ := by
  unfold Reconnect
  rw [bind_apply]
  simp only [emit_apply, bind_apply, deref_of_get h, Run.pre_out, dbDB_apply, Run.pre_st,
    Run.pre_ev, Run.pre_pre]
  cases hq : (env.dbDB D.DB s.world).1 with
  | err e => simp
  | ok q =>
    simp only [close_apply, Run.pre_out, Run.pre_st, Run.pre_ev]
    rcases hI : (InitDB env D.config
        { s with world := env.close q (env.dbDB D.DB s.world).2 }).out with (p | e) | _ | _
    all_goals simp [hI, Run.pre, bind_apply]

/-- The three ways `Reconnect` ends on a valid receiver whose config allows an attempt:
`db.DB()` fails; `InitDB` fails; `InitDB` succeeds. -/
theorem Reconnect_cases (env : Env σ) (d : Nat) (D : Database) (s : State σ)
    (h : s.heap[d]? = some D) (hm : 1 ≤ D.config.MaxRetries) :
    (∃ e, (env.dbDB D.DB s.world).1 = .err e
      ∧ Reconnect env d s = ⟨.ret (some (Errorf "failed to get sql.DB: " e)),
          { s with world := (env.dbDB D.DB s.world).2 }, [.reconnect d, .dbDB D.DB (.err e)]⟩)
    ∨ (∃ q e, (env.dbDB D.DB s.world).1 = .ok q
      ∧ (InitDB env D.config
          { s with world := env.close q (env.dbDB D.DB s.world).2 }).out = .ret (.err e)
      ∧ Reconnect env d s = ⟨.ret (some (Errorf "reconnection failed: " e)),
          (InitDB env D.config { s with world := env.close q (env.dbDB D.DB s.world).2 }).st,
          [.reconnect d, .dbDB D.DB (.ok q), .close q] ++
            (InitDB env D.config
              { s with world := env.close q (env.dbDB D.DB s.world).2 }).ev⟩
      ∧ (InitDB env D.config
          { s with world := env.close q (env.dbDB D.DB s.world).2 }).st.heap = s.heap
      ∧ (InitDB env D.config
          { s with world := env.close q (env.dbDB D.DB s.world).2 }).st.DbInstance
          = s.DbInstance)
    ∨ (∃ q db, (env.dbDB D.DB s.world).1 = .ok q
      ∧ (InitDB env D.config
          { s with world := env.close q (env.dbDB D.DB s.world).2 }).out
          = .ret (.ok s.heap.length)
      ∧ Reconnect env d s = ⟨.ret none,
          { world := (InitDB env D.config
              { s with world := env.close q (env.dbDB D.DB s.world).2 }).st.world,
            heap := (s.heap ++ [Database.mk db D.config]).set d (Database.mk db D.config),
            DbInstance := some s.heap.length },
          [.reconnect d, .dbDB D.DB (.ok q), .close q] ++
            (InitDB env D.config
              { s with world := env.close q (env.dbDB D.DB s.world).2 }).ev⟩
      ∧ (openResults (InitDB env D.config
          { s with world := env.close q (env.dbDB D.DB s.world).2 }).ev).getLast?
          = some (.ok db)) := by
  rw [Reconnect_apply env d D s h]
  cases hq : (env.dbDB D.DB s.world).1 with
  | err e => exact Or.inl ⟨e, rfl, rfl⟩
  | ok q =>
    right
    obtain ⟨i1, i2, i3, _⟩ := InitDB_facts env D.config
      { s with world := env.close q (env.dbDB D.DB s.world).2 }
    obtain ⟨r, hr⟩ := i1 hm
    cases r with
    | err e =>
      obtain ⟨g1, g2⟩ := i3 e hr
      left
      refine ⟨q, e, rfl, hr, ?_, g1, g2⟩
      simp only [hr]
    | ok p =>
      obtain ⟨_, g1, db, g2, g3, g4⟩ := i2 p hr
      simp only at g1 g2
      subst g1
      right
      refine ⟨q, db, rfl, hr, ?_, g4⟩
      simp only [hr]
      have hlt : d < s.heap.length := by
        rcases Nat.lt_or_ge d s.heap.length with hlt | hge
        · exact hlt
        · rw [List.getElem?_eq_none hge] at h; simp at h
      have hnew : (InitDB env D.config
          { s with world := env.close q (env.dbDB D.DB s.world).2 }).st.heap[s.heap.length]?
            = some (Database.mk db D.config) := by
        rw [g2]; simp
      have hold : (InitDB env D.config
          { s with world := env.close q (env.dbDB D.DB s.world).2 }).st.heap[d]? = some D := by
        rw [g2, List.getElem?_append_left hlt]; exact h
      rw [bind_ret (by rw [deref_of_get hnew])]
      simp only [deref_of_get hnew, bind_apply, setDB_of_get hold, Run.pre_out, Run.pre_st,
        Run.pre_ev, pure_apply]
      simp only [Run.pre, List.append_nil, g2, g3]

theorem Reconnect_facts (env : Env σ) (d : Nat) (D : Database) (s : State σ)
    (h : s.heap[d]? = some D) (hm : 1 ≤ D.config.MaxRetries) :
    (∃ rr, (Reconnect env d s).out = .ret rr)
    ∧ reconnects (Reconnect env d s).ev = [d]
    ∧ getDBResults (Reconnect env d s).ev = []
    ∧ (∀ e ∈ (Reconnect env d s).ev, e.ofRetry = false)
    ∧ (∀ e, (Reconnect env d s).out = .ret (some e) →
        (Reconnect env d s).st.heap = s.heap
        ∧ (Reconnect env d s).st.DbInstance = s.DbInstance)
    ∧ ((Reconnect env d s).out = .ret none →
        ∃ db, (openResults (Reconnect env d s).ev).getLast? = some (.ok db)
          ∧ (Reconnect env d s).st.DbInstance = some s.heap.length
          ∧ (Reconnect env d s).st.heap[s.heap.length]? = some (Database.mk db D.config)
          ∧ (Reconnect env d s).st.heap[d]? = some (Database.mk db D.config)) := by
  have hlt : d < s.heap.length := by
    rcases Nat.lt_or_ge d s.heap.length with hlt | hge
    · exact hlt
    · rw [List.getElem?_eq_none hge] at h; simp at h
  rcases Reconnect_cases env d D s h hm with ⟨e, _, hR⟩ | ⟨q, e, _, hI, hR, g1, g2⟩
    | ⟨q, db, _, hI, hR, g⟩
  · rw [hR]
    simp [reconnects, getDBResults, Event.ofRetry]
  · obtain ⟨_, _, _, i4⟩ := InitDB_facts env D.config
      { s with world := env.close q (env.dbDB D.DB s.world).2 }
    obtain ⟨p1, p2, _, _, _, _, p7⟩ := ofInitDB_projections i4
    rw [hR]
    refine ⟨⟨_, rfl⟩, ?_, ?_, ?_, ?_, ?_⟩
    · simp [reconnects, p1]
    · simp [getDBResults, p2]
    · intro ev hev
      simp only [List.mem_append, List.mem_cons, List.not_mem_nil, or_false] at hev
      rcases hev with (hev | hev | hev) | hev
      · subst hev; rfl
      · subst hev; rfl
      · subst hev; rfl
      · exact p7 ev hev
    · intro _ _; exact ⟨g1, g2⟩
    · intro hn; simp at hn
  · obtain ⟨_, _, _, i4⟩ := InitDB_facts env D.config
      { s with world := env.close q (env.dbDB D.DB s.world).2 }
    obtain ⟨p1, p2, _, _, _, _, p7⟩ := ofInitDB_projections i4
    rw [hR]
    refine ⟨⟨_, rfl⟩, ?_, ?_, ?_, ?_, ?_⟩
    · simp [reconnects, p1]
    · simp [getDBResults, p2]
    · intro ev hev
      simp only [List.mem_append, List.mem_cons, List.not_mem_nil, or_false] at hev
      rcases hev with (hev | hev | hev) | hev
      · subst hev; rfl
      · subst hev; rfl
      · subst hev; rfl
      · exact p7 ev hev
    · intro e he; simp at he
    · intro _
      refine ⟨db, ?_, rfl, ?_, ?_⟩
      · simp only [openResults_append]
        rw [List.getLast?_append, g]
        rfl
      · simp only
        rw [List.getElem?_set_ne (by omega)]
        simp
      · simp only
        rw [List.getElem?_set_self (by simp; omega)]

/-- A valid receiver whose config allows an attempt: `Reconnect` keeps the manager ready. -/
theorem Reconnect_ready (env : Env σ) (d : Nat) (D : Database) (s : State σ)
    (h : Established s d D) (hm : 1 ≤ D.config.MaxRetries) :
    Ready (Reconnect env d s).st := by
  obtain ⟨⟨rr, hrr⟩, _, _, _, f5, f6⟩ := Reconnect_facts env d D s h.2 hm
  cases rr with
  | some e =>
    obtain ⟨g1, g2⟩ := f5 e hrr
    exact ⟨d, D, ⟨by rw [g2]; exact h.1, by rw [g1]; exact h.2⟩, hm⟩
  | none =>
    obtain ⟨db, _, g2, g3, _⟩ := f6 hrr
    exact ⟨s.heap.length, Database.mk db D.config, ⟨g2, g3⟩, hm⟩

end ReconnectFacts

/-! ## Facts about `GetDB`, continued -/

section GetDBFacts2
variable {σ : Type}

/-- The run of `GetDB` on an established manager, up to the outcome of `Reconnect`. -/
theorem GetDB_apply (env : Env σ) (s : State σ) (d : Nat) (D : Database)
    (hE : Established s d D) :
    GetDB env s =
      match (GetDB.unhealthy env D.DB s).out with
      | .ret false => ⟨.ret (.ok D.DB), (GetDB.unhealthy env D.DB s).st,
          (GetDB.unhealthy env D.DB s).ev ++ [.getDBRet (.ok D.DB)]⟩
      | .ret true =>
        match (Reconnect env d (GetDB.unhealthy env D.DB s).st).out with
        | .ret (some e) => ⟨.ret (.err e), (Reconnect env d (GetDB.unhealthy env D.DB s).st).st,
            (GetDB.unhealthy env D.DB s).ev
              ++ (Reconnect env d (GetDB.unhealthy env D.DB s).st).ev ++ [.getDBRet (.err e)]⟩
        | .ret none =>
          ((GetDB.current >>= fun r => emit (.getDBRet r) >>= fun _ => pure r)
            (Reconnect env d (GetDB.unhealthy env D.DB s).st).st).pre
            ((GetDB.unhealthy env D.DB s).ev
              ++ (Reconnect env d (GetDB.unhealthy env D.DB s).st).ev)
        | .fatal msg => ⟨.fatal msg, (Reconnect env d (GetDB.unhealthy env D.DB s).st).st,
            (GetDB.unhealthy env D.DB s).ev
              ++ (Reconnect env d (GetDB.unhealthy env D.DB s).st).ev⟩
        | .panicked msg => ⟨.panicked msg, (Reconnect env d (GetDB.unhealthy env D.DB s).st).st,
            (GetDB.unhealthy env D.DB s).ev
              ++ (Reconnect env d (GetDB.unhealthy env D.DB s).st).ev⟩
      | .fatal msg => ⟨.fatal msg, (GetDB.unhealthy env D.DB s).st,
          (GetDB.unhealthy env D.DB s).ev⟩
      | .panicked msg => ⟨.panicked msg, (GetDB.unhealthy env D.DB s).st,
          (GetDB.unhealthy env D.DB s).ev⟩ := by
  have hE2 : Established (GetDB.unhealthy env D.DB s).st d D :=
    ⟨by rw [unhealthy_inst]; exact hE.1, by rw [unhealthy_heap]; exact hE.2⟩
  unfold GetDB GetDB.body
  simp only [bind_apply, getDbInstance_apply, hE.1, deref_of_get hE.2, Run.pre_out, Run.pre_st,
    Run.pre_ev, Run.pre_nil]
  rcases hU : (GetDB.unhealthy env D.DB s).out with b | _ | _
  · cases b with
    | false =>
      simp [hU, current_of_established hE2, Run.pre]
    | true =>
      simp only [hU, Run.pre_out, Run.pre_st, Run.pre_ev, if_true]
      rcases hR : (Reconnect env d (GetDB.unhealthy env D.DB s).st).out with (_ | e) | _ | _
      · rcases hc : (GetDB.current (Reconnect env d (GetDB.unhealthy env D.DB s).st).st).out
          with _ | _ | _
        all_goals simp [hR, hc, Run.pre, bind_apply]
      all_goals simp [hR, Run.pre, bind_apply]
  · simp [hU]
  · simp [hU]

theorem GetDB_healthy (env : Env σ) (s : State σ) (d : Nat) (D : Database)
    (hE : Established s d D) (hU : (GetDB.unhealthy env D.DB s).out = .ret false) :
    GetDB env s = ⟨.ret (.ok D.DB), (GetDB.unhealthy env D.DB s).st,
      (GetDB.unhealthy env D.DB s).ev ++ [.getDBRet (.ok D.DB)]⟩ := by
  rw [GetDB_apply env s d D hE, hU]

/-- An unhealthy handle: `GetDB` runs `Reconnect` once and returns its error, or the handle
`Reconnect` has just established. -/
theorem GetDB_unhealthy (env : Env σ) (s : State σ) (d : Nat) (D : Database)
    (hE : Established s d D) (hm : 1 ≤ D.config.MaxRetries)
    (hU : (GetDB.unhealthy env D.DB s).out = .ret true) :
    (∃ e, (Reconnect env d (GetDB.unhealthy env D.DB s).st).out = .ret (some e)
      ∧ GetDB env s = ⟨.ret (.err e), (Reconnect env d (GetDB.unhealthy env D.DB s).st).st,
          (GetDB.unhealthy env D.DB s).ev
            ++ (Reconnect env d (GetDB.unhealthy env D.DB s).st).ev ++ [.getDBRet (.err e)]⟩)
    ∨ (∃ db, (Reconnect env d (GetDB.unhealthy env D.DB s).st).out = .ret none
      ∧ GetDB env s = ⟨.ret (.ok db), (Reconnect env d (GetDB.unhealthy env D.DB s).st).st,
          (GetDB.unhealthy env D.DB s).ev
            ++ (Reconnect env d (GetDB.unhealthy env D.DB s).st).ev ++ [.getDBRet (.ok db)]⟩
      ∧ (openResults (Reconnect env d (GetDB.unhealthy env D.DB s).st).ev).getLast?
          = some (.ok db)
      ∧ Established (Reconnect env d (GetDB.unhealthy env D.DB s).st).st s.heap.length
          (Database.mk db D.config)) := by
  have hh : (GetDB.unhealthy env D.DB s).st.heap[d]? = some D := by
    rw [unhealthy_heap]; exact hE.2
  obtain ⟨⟨rr, hrr⟩, _, _, _, _, f6⟩ :=
    Reconnect_facts env d D (GetDB.unhealthy env D.DB s).st hh hm
  rw [GetDB_apply env s d D hE, hU]
  simp only [hrr]
  cases rr with
  | some e => exact Or.inl ⟨e, rfl, rfl⟩
  | none =>
    obtain ⟨db, g1, g2, g3, _⟩ := f6 hrr
    rw [unhealthy_heap] at g2 g3
    have hE3 : Established (Reconnect env d (GetDB.unhealthy env D.DB s).st).st s.heap.length
        (Database.mk db D.config) := ⟨g2, g3⟩
    refine Or.inr ⟨db, rfl, ?_, g1, hE3⟩
    simp [bind_apply, current_of_established hE3, Run.pre]

theorem unhealthy_ev (env : Env σ) (db : GormDB) (s : State σ) :
    ∀ e ∈ (GetDB.unhealthy env db s).ev, e.ofInitDB = true := by
  rw [unhealthy_apply]
  cases (env.dbDB db s.world).1 <;> simp [Event.ofInitDB]

/-- The health check says unhealthy only after a probe that failed. -/
theorem unhealthy_true_failed (env : Env σ) (db : GormDB) (s : State σ)
    (h : (GetDB.unhealthy env db s).out = .ret true) :
    ∃ e ∈ (GetDB.unhealthy env db s).ev, e.failedProbe = true := by
  rw [unhealthy_apply] at h ⊢
  cases hq : (env.dbDB db s.world).1 with
  | err e => simp [Event.failedProbe]
  | ok q =>
    rw [hq] at h
    simp only [Outcome.ret.injEq] at h
    cases hp : (env.ping q (env.dbDB db s.world).2).1 with
    | none => rw [hp] at h; simp at h
    | some e => simp [Event.failedProbe, hp]

theorem GetDB_facts (env : Env σ) (s : State σ) (hR : Ready s) :
    ∃ g, (GetDB env s).out = .ret g ∧ Ready (GetDB env s).st
      ∧ getDBResults (GetDB env s).ev = [g]
      ∧ (∀ e ∈ (GetDB env s).ev, e.ofRetry = false)
      ∧ (reconnects (GetDB env s).ev).length ≤ 1 := by
  obtain ⟨d, D, hE, hm⟩ := hR
  obtain ⟨u1, u2, _, _, _, _, u7⟩ := ofInitDB_projections (unhealthy_ev env D.DB s)
  have hE2 : Established (GetDB.unhealthy env D.DB s).st d D :=
    ⟨by rw [unhealthy_inst]; exact hE.1, by rw [unhealthy_heap]; exact hE.2⟩
  obtain ⟨b, hb⟩ := unhealthy_ret env D.DB s
  cases b with
  | false =>
    have hG := GetDB_healthy env s d D hE hb
    refine ⟨.ok D.DB, ?_, ?_, ?_, ?_, ?_⟩
    · rw [hG]
    · rw [hG]; exact ⟨d, D, hE2, hm⟩
    · rw [hG]
      simp only [getDBResults_append, u2, List.nil_append]
      rfl
    · rw [hG]
      intro e he
      rcases List.mem_append.1 he with he | he
      · exact u7 e he
      · simp only [List.mem_singleton] at he; subst he; rfl
    · rw [hG]
      simp only [reconnects_append, u1, List.nil_append]
      simp [reconnects]
  | true =>
    obtain ⟨_, r2, r3, r4, _, _⟩ :=
      Reconnect_facts env d D (GetDB.unhealthy env D.DB s).st hE2.2 hm
    have hready := Reconnect_ready env d D (GetDB.unhealthy env D.DB s).st hE2 hm
    have hev : ∀ (g : Result GormDB), ∀ e ∈ (GetDB.unhealthy env D.DB s).ev
        ++ (Reconnect env d (GetDB.unhealthy env D.DB s).st).ev ++ [.getDBRet g],
        e.ofRetry = false := by
      intro g e he
      rcases List.mem_append.1 he with he | he
      · rcases List.mem_append.1 he with he | he
        · exact u7 e he
        · exact r4 e he
      · simp only [List.mem_singleton] at he; subst he; rfl
    have hgen : ∀ (g : Result GormDB),
        GetDB env s = ⟨.ret g, (Reconnect env d (GetDB.unhealthy env D.DB s).st).st,
          (GetDB.unhealthy env D.DB s).ev
            ++ (Reconnect env d (GetDB.unhealthy env D.DB s).st).ev ++ [.getDBRet g]⟩ →
        ∃ g, (GetDB env s).out = .ret g ∧ Ready (GetDB env s).st
          ∧ getDBResults (GetDB env s).ev = [g]
          ∧ (∀ e ∈ (GetDB env s).ev, e.ofRetry = false)
          ∧ (reconnects (GetDB env s).ev).length ≤ 1 := by
      intro g hG
      refine ⟨g, ?_, ?_, ?_, ?_, ?_⟩
      · rw [hG]
      · rw [hG]; exact hready
      · rw [hG]
        simp only [getDBResults_append, u2, r3, List.nil_append]
        rfl
      · rw [hG]; exact hev g
      · rw [hG]
        simp only [reconnects_append, u1, r2, List.nil_append]
        simp [reconnects]
    rcases GetDB_unhealthy env s d D hE hm hb with ⟨e, _, hG⟩ | ⟨db, _, hG, _, _⟩
    · exact hgen _ hG
    · exact hgen _ hG

/-- A run of `GetDB` in which no probe failed found the handle healthy. -/
theorem GetDB_no_failed_probe (env : Env σ) (s : State σ) (d : Nat) (D : Database)
    (hE : Established s d D) (hm : 1 ≤ D.config.MaxRetries)
    (hp : ∀ e ∈ (GetDB env s).ev, e.failedProbe = false) :
    (GetDB.unhealthy env D.DB s).out = .ret false := by
  obtain ⟨b, hb⟩ := unhealthy_ret env D.DB s
  cases b with
  | false => exact hb
  | true =>
    exfalso
    obtain ⟨e, he, hf⟩ := unhealthy_true_failed env D.DB s hb
    have hin : e ∈ (GetDB env s).ev := by
      rcases GetDB_unhealthy env s d D hE hm hb with ⟨_, _, hG⟩ | ⟨_, _, hG, _, _⟩
      · rw [hG]; exact List.mem_append_left _ (List.mem_append_left _ he)
      · rw [hG]; exact List.mem_append_left _ (List.mem_append_left _ he)
    rw [hp e hin] at hf
    exact Bool.noConfusion hf

end GetDBFacts2

/-! ## Facts about `Retry` -/

section RetryFacts
variable {σ : Type}

theorem loop_zero (env : Env σ) (ctx : σ → Option GoError)
    (operation : GormDB → σ → Option GoError × σ) (retryInterval : Duration) (i : Int)
    (db : GormDB) (lastErr : Option GoError) (s : State σ) :
    Retry.loop env ctx operation retryInterval 0 i db lastErr s = ⟨.ret lastErr, s, []⟩ := rfl

/-- An iteration that finds the context cancelled. -/
theorem loop_cancelled (env : Env σ) (ctx : σ → Option GoError)
    (operation : GormDB → σ → Option GoError × σ) (retryInterval : Duration) (rem : Nat)
    (i : Int) (db : GormDB) (lastErr : Option GoError) (s : State σ) (e : GoError)
    (hc : ctx s.world = some e) :
    Retry.loop env ctx operation retryInterval (rem + 1) i db lastErr s
      = ⟨.ret (some e), s, [.ctxErr (some e)]⟩ := by
  rw [Retry.loop, bind_apply]
  simp [hc]

/-- An iteration in which the operation succeeds. -/
theorem loop_success (env : Env σ) (ctx : σ → Option GoError)
    (operation : GormDB → σ → Option GoError × σ) (retryInterval : Duration) (rem : Nat)
    (i : Int) (db : GormDB) (lastErr : Option GoError) (s : State σ)
    (hc : ctx s.world = none) (ho : (operation db s.world).1 = none) :
    Retry.loop env ctx operation retryInterval (rem + 1) i db lastErr s
      = ⟨.ret none, afterInvoke operation db s, [.ctxErr none, .operation db none]⟩ := by
  rw [Retry.loop, bind_apply]
  simp [hc, ho, bind_apply, afterInvoke]

/-- An iteration in which the operation fails with an error that is not retryable. -/
theorem loop_final (env : Env σ) (ctx : σ → Option GoError)
    (operation : GormDB → σ → Option GoError × σ) (retryInterval : Duration) (rem : Nat)
    (i : Int) (db : GormDB) (lastErr : Option GoError) (s : State σ) (err : GoError)
    (hc : ctx s.world = none) (ho : (operation db s.world).1 = some err)
    (hr : isRetryableError err = false) :
    Retry.loop env ctx operation retryInterval (rem + 1) i db lastErr s
      = ⟨.ret (some err), afterInvoke operation db s,
          [.ctxErr none, .operation db (some err)]⟩ := by
  rw [Retry.loop, bind_apply]
  simp [hc, ho, hr, bind_apply, afterInvoke]

/-- An iteration in which the operation fails with a retryable error, on a ready manager:
`Reconnect`, then `GetDB`; an error of `GetDB` ends the loop, a handle leads to the sleep and
the next iteration. -/
theorem loop_retry (env : Env σ) (ctx : σ → Option GoError)
    (operation : GormDB → σ → Option GoError × σ) (retryInterval : Duration) (rem : Nat)
    (i : Int) (db : GormDB) (lastErr : Option GoError) (s : State σ) (err : GoError)
    (d : Nat) (D : Database) (hE : Established s d D) (hm : 1 ≤ D.config.MaxRetries)
    (hc : ctx s.world = none) (ho : (operation db s.world).1 = some err)
    (hr : isRetryableError err = true) :
    (∃ e, (GetDB env (Reconnect env d (afterInvoke operation db s)).st).out = .ret (.err e)
      ∧ Retry.loop env ctx operation retryInterval (rem + 1) i db lastErr s
        = ⟨.ret (some e), (GetDB env (Reconnect env d (afterInvoke operation db s)).st).st,
            [.ctxErr none, .operation db (some err)]
              ++ (Reconnect env d (afterInvoke operation db s)).ev
              ++ (GetDB env (Reconnect env d (afterInvoke operation db s)).st).ev⟩)
    ∨ (∃ db2, (GetDB env (Reconnect env d (afterInvoke operation db s)).st).out
          = .ret (.ok db2)
      ∧ Retry.loop env ctx operation retryInterval (rem + 1) i db lastErr s
        = (Retry.loop env ctx operation retryInterval rem (i + 1) db2 (some err)
            (afterSleep env (Duration.mul retryInterval (i + 1))
              (GetDB env (Reconnect env d (afterInvoke operation db s)).st).st)).pre
            ([.ctxErr none, .operation db (some err)]
              ++ (Reconnect env d (afterInvoke operation db s)).ev
              ++ (GetDB env (Reconnect env d (afterInvoke operation db s)).st).ev
              ++ [.sleep .retry (Duration.mul retryInterval (i + 1))])) := by
  have hE1 : Established (afterInvoke operation db s) d D := hE
  obtain ⟨⟨rr, hrr⟩, _⟩ := Reconnect_facts env d D (afterInvoke operation db s) hE1.2 hm
  have hready := Reconnect_ready env d D (afterInvoke operation db s) hE1 hm
  obtain ⟨g, hg, _⟩ := GetDB_facts env _ hready
  cases g with
  | err e =>
    refine Or.inl ⟨e, hg, ?_⟩
    rw [Retry.loop, bind_apply]
    have hi := hE.1
    simp only [afterInvoke, hi] at hrr hg ⊢
    simp [hc, ho, hr, hi, bind_apply, hrr, hg, Run.pre]
  | ok db2 =>
    refine Or.inr ⟨db2, hg, ?_⟩
    rw [Retry.loop, bind_apply]
    have hi := hE.1
    simp only [afterInvoke, afterSleep, hi] at hrr hg ⊢
    simp [hc, ho, hr, hi, bind_apply, hrr, hg, Run.pre]

end RetryFacts

section RetryFacts2
variable {σ : Type}

/-- With `MaxRetries <= 0` the loop of `InitDB` does not run and `InitDB` panics. -/
theorem InitDB_nonpositive (env : Env σ) (config : DBConfig) (s : State σ)
    (h : config.MaxRetries ≤ 0) :
    InitDB env config s
      = ⟨.panicked "invalid memory address or nil pointer dereference", s, []⟩ := by
  rw [InitDB_apply, Int.toNat_of_nonpos h, connect_zero]

/-- Whenever `GetDB` returns, the manager was established, the run holds no event of `Retry`,
and its one `GetDB` result is the value returned. -/
theorem GetDB_ret_facts (env : Env σ) (s : State σ) (g : Result GormDB)
    (h : (GetDB env s).out = .ret g) :
    (∃ d D, Established s d D)
    ∧ getDBResults (GetDB env s).ev = [g]
    ∧ (∀ e ∈ (GetDB env s).ev, e.ofRetry = false) := by
  have hE : ∃ d D, Established s d D := by
    cases hi : s.DbInstance with
    | none =>
      exfalso
      unfold GetDB GetDB.body at h
      simp [bind_apply, hi] at h
    | some d =>
      cases hd : s.heap[d]? with
      | none =>
        exfalso
        unfold GetDB GetDB.body at h
        simp [bind_apply, hi, deref, hd] at h
      | some D => exact ⟨d, D, hi, hd⟩
  refine ⟨hE, ?_⟩
  obtain ⟨d, D, hE⟩ := hE
  by_cases hm : 1 ≤ D.config.MaxRetries
  · obtain ⟨g2, h1, _, h3, h4, _⟩ := GetDB_facts env s ⟨d, D, hE, hm⟩
    rw [h1] at h
    simp only [Outcome.ret.injEq] at h
    subst h
    exact ⟨h3, h4⟩
  · obtain ⟨u1, u2, _, _, _, _, u7⟩ := ofInitDB_projections (unhealthy_ev env D.DB s)
    have hh : (GetDB.unhealthy env D.DB s).st.heap[d]? = some D := by
      rw [unhealthy_heap]; exact hE.2
    rw [GetDB_apply env s d D hE] at h ⊢
    obtain ⟨b, hb⟩ := unhealthy_ret env D.DB s
    rw [hb] at h ⊢
    cases b with
    | false =>
      simp only [Outcome.ret.injEq] at h
      subst h
      refine ⟨?_, ?_⟩
      · simp only [getDBResults_append, u2, List.nil_append]
        rfl
      · intro e he
        rcases List.mem_append.1 he with he | he
        · exact u7 e he
        · simp only [List.mem_singleton] at he; subst he; rfl
    | true =>
      have hRapp := Reconnect_apply env d D _ hh
      cases hq : (env.dbDB D.DB (GetDB.unhealthy env D.DB s).st.world).1 with
      | err e =>
        rw [hq] at hRapp
        simp only at hRapp
        rw [hRapp] at h ⊢
        simp only [Outcome.ret.injEq] at h
        subst h
        refine ⟨?_, ?_⟩
        · simp only [getDBResults_append, u2, List.nil_append]
          rfl
        · intro ev hev
          simp only [List.mem_append, List.mem_cons, List.not_mem_nil, or_false] at hev
          rcases hev with (hev | hev | hev) | hev
          · exact u7 ev hev
          · subst hev; rfl
          · subst hev; rfl
          · subst hev; rfl
      | ok q =>
        rw [hq] at hRapp
        simp only at hRapp
        rw [InitDB_nonpositive env D.config _ (by omega)] at hRapp
        simp only at hRapp
        rw [hRapp] at h
        simp at h

theorem Retry_apply (env : Env σ) (ctx : σ → Option GoError)
    (operation : GormDB → σ → Option GoError × σ) (maxRetries : Int)
    (retryInterval : Duration) (s : State σ) :
    Retry env ctx operation maxRetries retryInterval s =
      match (GetDB env s).out with
      | .ret (.err e) => ⟨.ret (some e), (GetDB env s).st, (GetDB env s).ev⟩
      | .ret (.ok db) =>
        (Retry.loop env ctx operation retryInterval maxRetries.toNat 0 db none
          (GetDB env s).st).pre (GetDB env s).ev
      | .fatal msg => ⟨.fatal msg, (GetDB env s).st, (GetDB env s).ev⟩
      | .panicked msg => ⟨.panicked msg, (GetDB env s).st, (GetDB env s).ev⟩ := by
  unfold Retry
  rw [bind_apply]
  rcases hG : (GetDB env s).out with (_ | _) | _ | _ <;> simp [Run.pre]

end RetryFacts2

section RetryFacts3
variable {σ : Type}

/-- Every iteration of the loop of `Retry` begins with the context check; when the context
is live, the invocation of the operation comes next. -/
theorem loop_ev_head (env : Env σ) (ctx : σ → Option GoError)
    (operation : GormDB → σ → Option GoError × σ) (retryInterval : Duration) (rem : Nat)
    (i : Int) (db : GormDB) (lastErr : Option GoError) (s : State σ)
    (hc : ctx s.world = none) :
    ∃ rest, (Retry.loop env ctx operation retryInterval (rem + 1) i db lastErr s).ev
      = [.ctxErr none, .operation db (operation db s.world).1] ++ rest := by
  rw [Retry.loop, bind_apply]
  simp only [ctxErr_apply, hc, Run.pre_ev]
  rw [bind_apply]
  simp only [invoke_apply, Run.pre_ev]
  exact ⟨_, rfl⟩

theorem backoffWaits_eq_map (interval : Duration) (k : Nat) :
    ∀ i : Int, backoffWaits interval i k
      = (List.range k).map (fun j => Duration.mul interval (i + ((j : Nat) : Int) + 1)) := by
  induction k with
  | zero => intro i; rfl
  | succ k ih =>
    intro i
    rw [backoffWaits, ih, List.range_succ_eq_map]
    simp only [List.map_cons, List.map_map, Nat.cast_zero, add_zero]
    congr 1
    apply List.map_congr_left
    intro j _
    simp only [Function.comp, Nat.cast_succ]
    congr 1
    ring

/-- An `int64` product that fits is the product of the integers. -/
theorem Duration.mul_of_fits (d k : Int)
    (h1 : -(2 ^ 63) ≤ d * k) (h2 : d * k < 2 ^ 63) : Duration.mul d k = d * k := by
  have e63 : (2 : Int) ^ 63 = 9223372036854775808 := by norm_num
  have e64 : (2 : Int) ^ 64 = 18446744073709551616 := by norm_num
  unfold Duration.mul wrapInt64
  rw [e63] at h1 h2 ⊢
  rw [e64]
  rw [Int.emod_eq_of_lt (by omega) (by omega)]
  exact Int.add_sub_cancel (d * k) _

end RetryFacts3

/-! ## The claims about `Retry` that end in the first iteration -/

section RetryClaims
variable {σ : Type}

/-- C10: with `maxRetries <= 0` and an initial `GetDB` that gives a handle, `Retry` returns the
nil error, whatever the operation and whether or not the context is cancelled.  Its run is
the run of that `GetDB` and nothing more: no invocation of the operation, no context check, no
call of `Reconnect` and no sleep of its own. -/
theorem Retry_nonpositive_maxRetries (env : Env σ) (ctx : σ → Option GoError)
    (operation : GormDB → σ → Option GoError × σ) (maxRetries : Int)
    (retryInterval : Duration) (s : State σ) (db : GormDB)
    (hn : maxRetries ≤ 0) (hG : (GetDB env s).out = .ret (.ok db)) :
    (Retry env ctx operation maxRetries retryInterval s).out = .ret none
    ∧ (Retry env ctx operation maxRetries retryInterval s).ev = (GetDB env s).ev
    ∧ (Retry env ctx operation maxRetries retryInterval s).st = (GetDB env s).st
    ∧ opResults (Retry env ctx operation maxRetries retryInterval s).ev = []
    ∧ ctxResults (Retry env ctx operation maxRetries retryInterval s).ev = []
    ∧ waits .retry (Retry env ctx operation maxRetries retryInterval s).ev = [] := by
  obtain ⟨_, _, g3⟩ := GetDB_ret_facts env s _ hG
  obtain ⟨p1, p2, p3⟩ := not_ofRetry_projections g3
  rw [Retry_apply, hG, Int.toNat_of_nonpos hn]
  simp only [loop_zero, Run.pre_mk, List.append_nil, true_and]
  exact ⟨p1, p2, p3⟩

theorem Retry_nonpositive_maxRetries_witness :
    (0 : Int) ≤ 0
    ∧ (GetDB Script.env (demoState { Script.quiet with cancelled := true })).out
        = .ret (.ok 7)
    ∧ (Retry Script.env Script.ctx Script.operation 0 1000000000
        (demoState { Script.quiet with cancelled := true })).out = .ret none
    ∧ (Retry Script.env Script.ctx Script.operation 0 1000000000
        (demoState { Script.quiet with cancelled := true })).ev
        = [.dbDB 7 (.ok 7), .ping 7 none, .getDBRet (.ok 7)] :=
  ⟨by decide, by decide,
    (Retry_nonpositive_maxRetries Script.env Script.ctx Script.operation 0 1000000000
      (demoState { Script.quiet with cancelled := true }) 7 (by decide) (by decide)).1,
    by decide⟩

/-- C4, as amended: when the initial `GetDB` gives a handle, `maxRetries >= 1` and the context
is cancelled (or past its deadline) when the loop starts, `Retry` returns the error of the
context and never invokes the operation: after the run of `GetDB` its only step is the
context check. -/
theorem Retry_cancelled_before_first_attempt (env : Env σ) (ctx : σ → Option GoError)
    (operation : GormDB → σ → Option GoError × σ) (maxRetries : Int)
    (retryInterval : Duration) (s : State σ) (db : GormDB) (e : GoError)
    (hn : 1 ≤ maxRetries) (hG : (GetDB env s).out = .ret (.ok db))
    (hc : ctx (GetDB env s).st.world = some e) :
    (Retry env ctx operation maxRetries retryInterval s).out = .ret (some e)
    ∧ (Retry env ctx operation maxRetries retryInterval s).ev
        = (GetDB env s).ev ++ [.ctxErr (some e)]
    ∧ opResults (Retry env ctx operation maxRetries retryInterval s).ev = []
    ∧ (Retry env ctx operation maxRetries retryInterval s).st = (GetDB env s).st := by
  obtain ⟨_, _, g3⟩ := GetDB_ret_facts env s _ hG
  obtain ⟨p1, _, _⟩ := not_ofRetry_projections g3
  obtain ⟨k, hk⟩ : ∃ k, maxRetries.toNat = k + 1 := ⟨maxRetries.toNat - 1, by omega⟩
  rw [Retry_apply, hG, hk]
  simp only [loop_cancelled env ctx operation retryInterval k 0 db none _ e hc, Run.pre_mk,
    true_and, and_true]
  rw [opResults_append, p1]
  rfl

theorem Retry_cancelled_before_first_attempt_witness :
    (1 : Int) ≤ 3
    ∧ (GetDB Script.env (demoState { Script.quiet with cancelled := true })).out
        = .ret (.ok 7)
    ∧ Script.ctx (GetDB Script.env (demoState { Script.quiet with cancelled := true })).st.world
        = some (.plain "context canceled")
    ∧ (Retry Script.env Script.ctx Script.operation 3 1000000000
        (demoState { Script.quiet with cancelled := true })).out
        = .ret (some (.plain "context canceled"))
    ∧ opResults (Retry Script.env Script.ctx Script.operation 3 1000000000
        (demoState { Script.quiet with cancelled := true })).ev = [] :=
  ⟨by decide, by decide, by decide,
    (Retry_cancelled_before_first_attempt Script.env Script.ctx Script.operation 3 1000000000
      (demoState { Script.quiet with cancelled := true }) 7 (.plain "context canceled")
      (by decide) (by decide) (by decide)).1,
    (Retry_cancelled_before_first_attempt Script.env Script.ctx Script.operation 3 1000000000
      (demoState { Script.quiet with cancelled := true }) 7 (.plain "context canceled")
      (by decide) (by decide) (by decide)).2.2.1⟩

/-- C4 as stated fails on two inputs whose context is cancelled from the start.  With a retry
count of 0 and a healthy manager, `Retry` returns the nil error, not the error of the context.
With a retry count of 3 and a manager whose probe fails and whose target refuses every
connection, `Retry` returns the error of `GetDB`, not the error of the context. -/
theorem Retry_cancelled_counterexample :
    Script.ctx { Script.quiet with cancelled := true } = some (.plain "context canceled")
    ∧ (Retry Script.env Script.ctx Script.operation 0 1000000000
        (demoState { Script.quiet with cancelled := true })).out = .ret none
    ∧ (Retry Script.env Script.ctx Script.operation 3 1000000000
        (demoState { Script.quiet with
          cancelled := true, pings := [some (.plain "bad connection")] })).out
        = .ret (some (Errorf "reconnection failed: "
            (Errorf "failed to connect to database after 3 retries: "
              (.plain "connection refused"))))
    ∧ ctxResults (Retry Script.env Script.ctx Script.operation 3 1000000000
        (demoState { Script.quiet with
          cancelled := true, pings := [some (.plain "bad connection")] })).ev = [] := by
  decide

/-- C2: when the initial `GetDB` gives a handle, `maxRetries >= 1`, and the first invocation
of the operation in the run fails with an error `e` that is not retryable, `Retry` returns
exactly `e`.  After the run of `GetDB` its only steps are one context check and that one
invocation: no call of `Reconnect`, no sleep. -/
theorem Retry_nonretryable_first_attempt (env : Env σ) (ctx : σ → Option GoError)
    (operation : GormDB → σ → Option GoError × σ) (maxRetries : Int)
    (retryInterval : Duration) (s : State σ) (db : GormDB) (e : GoError)
    (hn : 1 ≤ maxRetries) (hG : (GetDB env s).out = .ret (.ok db))
    (hop : (opResults (Retry env ctx operation maxRetries retryInterval s).ev).head?
      = some (some e))
    (hr : isRetryableError e = false) :
    (Retry env ctx operation maxRetries retryInterval s).out = .ret (some e)
    ∧ (Retry env ctx operation maxRetries retryInterval s).ev
        = (GetDB env s).ev ++ [.ctxErr none, .operation db (some e)]
    ∧ opResults (Retry env ctx operation maxRetries retryInterval s).ev = [some e]
    ∧ reconnects (Retry env ctx operation maxRetries retryInterval s).ev
        = reconnects (GetDB env s).ev
    ∧ waits .retry (Retry env ctx operation maxRetries retryInterval s).ev = [] := by
  obtain ⟨_, _, g3⟩ := GetDB_ret_facts env s _ hG
  obtain ⟨p1, _, p3⟩ := not_ofRetry_projections g3
  obtain ⟨k, hk⟩ : ∃ k, maxRetries.toNat = k + 1 := ⟨maxRetries.toNat - 1, by omega⟩
  rw [Retry_apply, hG, hk] at hop ⊢
  simp only [Run.pre_ev, Run.pre_out, opResults_append, p1, List.nil_append] at hop ⊢
  cases hc : ctx (GetDB env s).st.world with
  | some c =>
    rw [loop_cancelled env ctx operation retryInterval k 0 db none _ c hc] at hop
    simp [opResults] at hop
  | none =>
    obtain ⟨rest, hrest⟩ := loop_ev_head env ctx operation retryInterval k 0 db none
      (GetDB env s).st hc
    rw [hrest] at hop
    simp only [List.cons_append, List.nil_append, opResults, List.head?_cons,
      Option.some.injEq] at hop
    rw [loop_final env ctx operation retryInterval k 0 db none _ e hc hop hr]
    simp only [true_and]
    refine ⟨rfl, ?_, ?_⟩
    · rw [reconnects_append]
      simp [reconnects]
    · rw [waits_append, p3]
      simp [waits]

theorem Retry_nonretryable_first_attempt_witness :
    (1 : Int) ≤ 3
    ∧ (GetDB Script.env
        (demoState { Script.quiet with ops := [some (.plain "duplicate key")] })).out
        = .ret (.ok 7)
    ∧ (opResults (Retry Script.env Script.ctx Script.operation 3 1000000000
        (demoState { Script.quiet with ops := [some (.plain "duplicate key")] })).ev).head?
        = some (some (.plain "duplicate key"))
    ∧ isRetryableError (.plain "duplicate key") = false
    ∧ (Retry Script.env Script.ctx Script.operation 3 1000000000
        (demoState { Script.quiet with ops := [some (.plain "duplicate key")] })).out
        = .ret (some (.plain "duplicate key"))
    ∧ opResults (Retry Script.env Script.ctx Script.operation 3 1000000000
        (demoState { Script.quiet with ops := [some (.plain "duplicate key")] })).ev
        = [some (.plain "duplicate key")] :=
  ⟨by decide, by decide, by decide, by decide,
    (Retry_nonretryable_first_attempt Script.env Script.ctx Script.operation 3 1000000000
      (demoState { Script.quiet with ops := [some (.plain "duplicate key")] }) 7
      (.plain "duplicate key") (by decide) (by decide) (by decide) (by decide)).1,
    (Retry_nonretryable_first_attempt Script.env Script.ctx Script.operation 3 1000000000
      (demoState { Script.quiet with ops := [some (.plain "duplicate key")] }) 7
      (.plain "duplicate key") (by decide) (by decide) (by decide) (by decide)).2.2.1⟩

end RetryClaims

/-! ## The claims about `GetDB`, `Reconnect` and `InitDB` -/

section ConnectionClaims
variable {σ : Type}

/-- C6: on an established manager whose stored handle passes the health check (`db.DB()`
gives a pool `q` and `q.Ping()` succeeds), `GetDB` returns that stored handle with no error.
Its run is the two probe calls and nothing else: no `gorm.Open`, no `Close`, no `Reconnect`, no
sleep.  The heap of `Database` objects and `DbInstance` are left as they were, and a second
call whose probe passes again returns the same handle. -/
theorem GetDB_healthy_handle (env : Env σ) (s : State σ) (d : Nat) (D : Database) (q : SqlDB)
    (hE : Established s d D)
    (hq : (env.dbDB D.DB s.world).1 = .ok q)
    (hp : (env.ping q (env.dbDB D.DB s.world).2).1 = none) :
    (GetDB env s).out = .ret (.ok D.DB)
    ∧ (GetDB env s).ev = [.dbDB D.DB (.ok q), .ping q none, .getDBRet (.ok D.DB)]
    ∧ openResults (GetDB env s).ev = [] ∧ closes (GetDB env s).ev = []
    ∧ reconnects (GetDB env s).ev = []
    ∧ waits .initDB (GetDB env s).ev = [] ∧ waits .retry (GetDB env s).ev = []
    ∧ (GetDB env s).st.heap = s.heap ∧ (GetDB env s).st.DbInstance = s.DbInstance
    ∧ Established (GetDB env s).st d D
    ∧ ∀ q2, (env.dbDB D.DB (GetDB env s).st.world).1 = .ok q2 →
        (env.ping q2 (env.dbDB D.DB (GetDB env s).st.world).2).1 = none →
        (GetDB env (GetDB env s).st).out = .ret (.ok D.DB) := by
  have hU : ∀ (t : State σ) (q2 : SqlDB), (env.dbDB D.DB t.world).1 = .ok q2 →
      (env.ping q2 (env.dbDB D.DB t.world).2).1 = none →
      GetDB.unhealthy env D.DB t = ⟨.ret false,
        { t with world := (env.ping q2 (env.dbDB D.DB t.world).2).2 },
        [.dbDB D.DB (.ok q2), .ping q2 none]⟩ := by
    intro t q2 h1 h2
    rw [unhealthy_apply, h1]
    simp only [h2, Option.isSome_none]
  have hG : GetDB env s = ⟨.ret (.ok D.DB),
      { s with world := (env.ping q (env.dbDB D.DB s.world).2).2 },
      [.dbDB D.DB (.ok q), .ping q none, .getDBRet (.ok D.DB)]⟩ := by
    rw [GetDB_healthy env s d D hE (by rw [hU s q hq hp]), hU s q hq hp]
    rfl
  have hE2 : Established (GetDB env s).st d D := by rw [hG]; exact hE
  rw [hG]
  refine ⟨rfl, rfl, rfl, rfl, rfl, rfl, rfl, rfl, rfl, hE, ?_⟩
  intro q2 h1 h2
  rw [hG] at hE2
  rw [GetDB_healthy env _ d D hE2 (by rw [hU _ q2 h1 h2])]

theorem GetDB_healthy_handle_witness :
    Established (demoState Script.quiet) 0 { DB := 7, config := demoConfig }
    ∧ (Script.env.dbDB 7 Script.quiet).1 = .ok 7
    ∧ (Script.env.ping 7 (Script.env.dbDB 7 Script.quiet).2).1 = none
    ∧ (GetDB Script.env (demoState Script.quiet)).out = .ret (.ok 7)
    ∧ (GetDB Script.env (demoState Script.quiet)).ev
        = [.dbDB 7 (.ok 7), .ping 7 none, .getDBRet (.ok 7)] :=
  ⟨⟨rfl, rfl⟩, rfl, rfl,
    (GetDB_healthy_handle Script.env (demoState Script.quiet) 0
      { DB := 7, config := demoConfig } 7 ⟨rfl, rfl⟩ rfl rfl).1,
    (GetDB_healthy_handle Script.env (demoState Script.quiet) 0
      { DB := 7, config := demoConfig } 7 ⟨rfl, rfl⟩ rfl rfl).2.1⟩

/-- C5: on an established manager whose stored config allows at least one attempt and whose
stored handle fails the health check (`db.DB()` fails, or it gives a pool whose `Ping` fails),
`GetDB` calls `Reconnect` exactly once, right after the probe, and returns what `Reconnect`
gives: when `Reconnect` returns an error, that error and no handle; when `Reconnect` returns
nil, the handle that `Reconnect` has just established (the result of the last `gorm.Open` of
its run), which the manager then holds. -/
theorem GetDB_unhealthy_handle (env : Env σ) (s : State σ) (d : Nat) (D : Database)
    (hE : Established s d D) (hm : 1 ≤ D.config.MaxRetries)
    (hbad : (∃ e, (env.dbDB D.DB s.world).1 = .err e)
      ∨ ∃ q e, (env.dbDB D.DB s.world).1 = .ok q
          ∧ (env.ping q (env.dbDB D.DB s.world).2).1 = some e) :
    reconnects (GetDB env s).ev = [d]
    ∧ (∃ rr, (Reconnect env d (GetDB.unhealthy env D.DB s).st).out = .ret rr)
    ∧ (GetDB env s).st = (Reconnect env d (GetDB.unhealthy env D.DB s).st).st
    ∧ (∀ e, (Reconnect env d (GetDB.unhealthy env D.DB s).st).out = .ret (some e) →
        (GetDB env s).out = .ret (.err e)
        ∧ (GetDB env s).ev = (GetDB.unhealthy env D.DB s).ev
            ++ (Reconnect env d (GetDB.unhealthy env D.DB s).st).ev ++ [.getDBRet (.err e)])
    ∧ ((Reconnect env d (GetDB.unhealthy env D.DB s).st).out = .ret none →
        ∃ db, (GetDB env s).out = .ret (.ok db)
          ∧ (GetDB env s).ev = (GetDB.unhealthy env D.DB s).ev
              ++ (Reconnect env d (GetDB.unhealthy env D.DB s).st).ev ++ [.getDBRet (.ok db)]
          ∧ (openResults (Reconnect env d (GetDB.unhealthy env D.DB s).st).ev).getLast?
              = some (.ok db)
          ∧ Established (GetDB env s).st s.heap.length (Database.mk db D.config)) := by
  have hU : (GetDB.unhealthy env D.DB s).out = .ret true := by
    rw [unhealthy_apply]
    rcases hbad with ⟨e, h1⟩ | ⟨q, e, h1, h2⟩
    · rw [h1]
    · rw [h1]; simp only [h2, Option.isSome_some]
  obtain ⟨u1, _⟩ := ofInitDB_projections (unhealthy_ev env D.DB s)
  have hh : (GetDB.unhealthy env D.DB s).st.heap[d]? = some D := by
    rw [unhealthy_heap]; exact hE.2
  obtain ⟨r1, r2, _⟩ := Reconnect_facts env d D (GetDB.unhealthy env D.DB s).st hh hm
  rcases GetDB_unhealthy env s d D hE hm hU with ⟨e, hR, hG⟩ | ⟨db, hR, hG, hlast, hest⟩
  · refine ⟨?_, r1, by rw [hG], ?_, ?_⟩
    · rw [hG]
      simp only [reconnects_append, u1, r2, List.nil_append]
      rfl
    · intro e2 he2
      rw [hR] at he2
      simp only [Outcome.ret.injEq, Option.some.injEq] at he2
      subst he2
      rw [hG]
      exact ⟨rfl, rfl⟩
    · intro hn
      rw [hR] at hn
      simp at hn
  · refine ⟨?_, r1, by rw [hG], ?_, ?_⟩
    · rw [hG]
      simp only [reconnects_append, u1, r2, List.nil_append]
      rfl
    · intro e2 he2
      rw [hR] at he2
      simp at he2
    · intro _
      refine ⟨db, by rw [hG], by rw [hG], hlast, ?_⟩
      rw [hG]
      exact hest

theorem GetDB_unhealthy_handle_witness :
    Established (demoState { Script.quiet with
        pings := [some (.plain "bad connection")], opens := [.ok 8] }) 0
      { DB := 7, config := demoConfig }
    ∧ (1 : Int) ≤ demoConfig.MaxRetries
    ∧ reconnects (GetDB Script.env (demoState { Script.quiet with
        pings := [some (.plain "bad connection")], opens := [.ok 8] })).ev = [0]
    ∧ (GetDB Script.env (demoState { Script.quiet with
        pings := [some (.plain "bad connection")], opens := [.ok 8] })).out = .ret (.ok 8) :=
  ⟨⟨rfl, rfl⟩, by decide,
    (GetDB_unhealthy_handle Script.env (demoState { Script.quiet with
        pings := [some (.plain "bad connection")], opens := [.ok 8] }) 0
      { DB := 7, config := demoConfig } ⟨rfl, rfl⟩ (by decide)
      (Or.inr ⟨7, .plain "bad connection", rfl, rfl⟩)).1,
    by decide⟩

/-- C8, as amended: on an established manager whose stored config allows at least one attempt
and whose held handle gives its pool (`d.DB.DB()` succeeds with `q`), `Reconnect` closes `q`
and then runs `InitDB` with the stored config: its run is the call of `db.DB()`, the `Close`,
and the run of `InitDB` from the state after the `Close`.  When that `InitDB` succeeds,
`Reconnect` returns nil and both the receiver and the new `DbInstance` hold the handle just
established, with the stored config.  When it fails, `Reconnect` returns the error wrapped as
"reconnection failed", and the heap and `DbInstance` are as before: the manager still holds
the old handle, whose pool has been closed. -/
theorem Reconnect_reestablishes (env : Env σ) (s : State σ) (d : Nat) (D : Database)
    (q : SqlDB) (hE : Established s d D) (hm : 1 ≤ D.config.MaxRetries)
    (hq : (env.dbDB D.DB s.world).1 = .ok q) :
    (Reconnect env d s).ev = [.reconnect d, .dbDB D.DB (.ok q), .close q]
        ++ (InitDB env D.config (afterClose env D.DB q s)).ev
    ∧ closes (Reconnect env d s).ev = [q]
    ∧ ((∃ db, (InitDB env D.config (afterClose env D.DB q s)).out = .ret (.ok s.heap.length)
          ∧ (openResults (InitDB env D.config (afterClose env D.DB q s)).ev).getLast?
              = some (.ok db)
          ∧ (Reconnect env d s).out = .ret none
          ∧ (Reconnect env d s).st.heap[d]? = some (Database.mk db D.config)
          ∧ Established (Reconnect env d s).st s.heap.length (Database.mk db D.config))
      ∨ (∃ e, (InitDB env D.config (afterClose env D.DB q s)).out = .ret (.err e)
          ∧ (Reconnect env d s).out = .ret (some (Errorf "reconnection failed: " e))
          ∧ (Reconnect env d s).st.heap = s.heap
          ∧ (Reconnect env d s).st.DbInstance = s.DbInstance
          ∧ Established (Reconnect env d s).st d D)) := by
  have hlt : d < s.heap.length := by
    rcases Nat.lt_or_ge d s.heap.length with hlt | hge
    · exact hlt
    · have := hE.2
      rw [List.getElem?_eq_none hge] at this
      simp at this
  obtain ⟨_, _, _, i4⟩ := InitDB_facts env D.config (afterClose env D.DB q s)
  obtain ⟨_, _, _, _, _, pc, _⟩ := ofInitDB_projections i4
  rcases Reconnect_cases env d D s hE.2 hm with ⟨e, h1, _⟩ | ⟨q2, e, h1, hI, hR, g1, g2⟩
    | ⟨q2, db, h1, hI, hR, hlast⟩
  · rw [hq] at h1; simp at h1
  · rw [hq] at h1
    simp only [Result.ok.injEq] at h1
    subst h1
    rw [hR]
    refine ⟨rfl, ?_, Or.inr ⟨e, hI, rfl, g1, g2, ?_⟩⟩
    · show closes ([.reconnect d, .dbDB D.DB (.ok q), .close q]
        ++ (InitDB env D.config (afterClose env D.DB q s)).ev) = [q]
      rw [closes_append, pc]
      rfl
    · exact ⟨by rw [show _ = s.DbInstance from g2]; exact hE.1,
        by rw [show _ = s.heap from g1]; exact hE.2⟩
  · rw [hq] at h1
    simp only [Result.ok.injEq] at h1
    subst h1
    rw [hR]
    refine ⟨rfl, ?_, Or.inl ⟨db, hI, hlast, rfl, ?_, rfl, ?_⟩⟩
    · show closes ([.reconnect d, .dbDB D.DB (.ok q), .close q]
        ++ (InitDB env D.config (afterClose env D.DB q s)).ev) = [q]
      rw [closes_append, pc]
      rfl
    · show ((s.heap ++ [Database.mk db D.config]).set d (Database.mk db D.config))[d]? = _
      rw [List.getElem?_set_self (by simp; omega)]
    · show ((s.heap ++ [Database.mk db D.config]).set d
        (Database.mk db D.config))[s.heap.length]? = _
      rw [List.getElem?_set_ne (by omega)]
      simp

theorem Reconnect_reestablishes_witness :
    Established (demoState { Script.quiet with opens := [.ok 8] }) 0
      { DB := 7, config := demoConfig }
    ∧ (1 : Int) ≤ demoConfig.MaxRetries
    ∧ (Script.env.dbDB 7 { Script.quiet with opens := [.ok 8] }).1 = .ok 7
    ∧ closes (Reconnect Script.env 0 (demoState { Script.quiet with opens := [.ok 8] })).ev
        = [7]
    ∧ (Reconnect Script.env 0 (demoState { Script.quiet with opens := [.ok 8] })).out
        = .ret none
    ∧ (Reconnect Script.env 0 (demoState { Script.quiet with opens := [.ok 8] })).st.heap
        = [{ DB := 8, config := demoConfig }, { DB := 8, config := demoConfig }] :=
  ⟨⟨rfl, rfl⟩, by decide, rfl,
    (Reconnect_reestablishes Script.env (demoState { Script.quiet with opens := [.ok 8] }) 0
      { DB := 7, config := demoConfig } 7 ⟨rfl, rfl⟩ (by decide) rfl).2.1,
    by decide, by decide⟩

/-- C8 as stated fails on an established manager whose held handle cannot give its pool:
`Reconnect` returns the error of `db.DB()` at once; it closes nothing and makes no
connection attempt. -/
theorem Reconnect_counterexample :
    Established (demoState { Script.quiet with dbs := [.err (.plain "invalid db")] }) 0
      { DB := 7, config := demoConfig }
    ∧ (Reconnect Script.env 0
        (demoState { Script.quiet with dbs := [.err (.plain "invalid db")] })).ev
        = [.reconnect 0, .dbDB 7 (.err (.plain "invalid db"))]
    ∧ closes (Reconnect Script.env 0
        (demoState { Script.quiet with dbs := [.err (.plain "invalid db")] })).ev = []
    ∧ openResults (Reconnect Script.env 0
        (demoState { Script.quiet with dbs := [.err (.plain "invalid db")] })).ev = []
    ∧ (Reconnect Script.env 0
        (demoState { Script.quiet with dbs := [.err (.plain "invalid db")] })).out
        = .ret (some (Errorf "failed to get sql.DB: " (.plain "invalid db"))) :=
  ⟨⟨rfl, rfl⟩, by decide, by decide, by decide, by decide⟩

theorem openResults_failedAttempts (config : DBConfig) (errs : List GoError) :
    ∀ i : Int, openResults (failedAttempts config i errs) = errs.map .err := by
  induction errs with
  | nil => intro i; rfl
  | cons e es ih => intro i; simp [failedAttempts, openResults, ih]

theorem waits_failedAttempts (config : DBConfig) (errs : List GoError) :
    ∀ i : Int, waits .initDB (failedAttempts config i errs)
      = backoffWaits config.RetryInterval i errs.length := by
  induction errs with
  | nil => intro i; rfl
  | cons e es ih => intro i; simp [failedAttempts, waits, backoffWaits, ih]

/-- C1, as amended: with `MaxRetries = n >= 1`, when every `gorm.Open` of the run fails,
`InitDB` makes exactly `n` attempts and exactly `n` sleeps, one after each failed attempt, the
last attempt included, of durations `RetryInterval * 1`, `RetryInterval * 2`, ...,
`RetryInterval * n` in that order (products of `time.Duration`, an `int64`).  It then returns
the error "failed to connect to database after n retries", which wraps the error of the last
attempt, and leaves the manager as it was. -/
theorem InitDB_exhausted (env : Env σ) (config : DBConfig) (s : State σ)
    (hn : 1 ≤ config.MaxRetries)
    (hall : ∀ r ∈ openResults (InitDB env config s).ev, r.isOk = false) :
    ∃ errs last, errs.length = config.MaxRetries.toNat ∧ errs.getLast? = some last
      ∧ (InitDB env config s).ev = failedAttempts config 0 errs
      ∧ openResults (InitDB env config s).ev = errs.map .err
      ∧ waits .initDB (InitDB env config s).ev
          = (List.range config.MaxRetries.toNat).map
              (fun j => Duration.mul config.RetryInterval (((j : Nat) : Int) + 1))
      ∧ (InitDB env config s).out
          = .ret (.err (Errorf ("failed to connect to database after "
              ++ toString config.MaxRetries ++ " retries: ") last))
      ∧ (Errorf ("failed to connect to database after "
              ++ toString config.MaxRetries ++ " retries: ") last).Unwrap = some last
      ∧ (InitDB env config s).st.heap = s.heap
      ∧ (InitDB env config s).st.DbInstance = s.DbInstance := by
  have hpos : 0 < config.MaxRetries.toNat := by omega
  obtain ⟨c1, c2, _, x, c4, c5⟩ := connect_frame env config config.MaxRetries.toNat 0 none s
  have hlast := connect_ok_last env config config.MaxRetries.toNat 0 none s
  have hfail := connect_all_fail env config config.MaxRetries.toNat 0 none s
  rw [InitDB_apply] at hall ⊢
  rw [c4] at hall hlast hfail ⊢
  obtain ⟨r, hr⟩ := c5 hpos
  subst hr
  cases r with
  | ok db =>
    exfalso
    simp only [Run.pre_ev, openResults_append] at hall
    have hmem : Result.ok db ∈ openResults
        (InitDB.connect env config config.MaxRetries.toNat 0 none s).ev :=
      List.mem_of_getLast?_eq_some (hlast db rfl hpos)
    have he := hall _ (List.mem_append_left _ hmem)
    simp [Result.isOk] at he
  | err e =>
    simp only at hall ⊢
    obtain ⟨errs, hlen, hev, hout⟩ := hfail (fun r hr => by
      have h := hall r hr
      cases r with
      | ok db => simp [Result.isOk] at h
      | err e2 => exact ⟨e2, rfl⟩)
    cases hl : errs.getLast? with
    | none =>
      rw [List.getLast?_eq_none_iff] at hl
      subst hl
      simp at hlen
      omega
    | some last =>
      rw [hl] at hout
      simp only [Outcome.ret.injEq, Option.some.injEq, Result.err.injEq] at hout
      subst hout
      refine ⟨errs, e, hlen, hl, hev, ?_, ?_, rfl, rfl, c1, c2⟩
      · rw [hev, openResults_failedAttempts]
      · rw [hev, waits_failedAttempts, hlen, backoffWaits_eq_map]
        simp only [zero_add]

theorem InitDB_exhausted_witness :
    (1 : Int) ≤ demoConfig.MaxRetries
    ∧ (∀ r ∈ openResults (InitDB Script.env demoConfig (freshState Script.quiet)).ev,
        r.isOk = false)
    ∧ ∃ errs last, errs.length = demoConfig.MaxRetries.toNat ∧ errs.getLast? = some last
      ∧ (InitDB Script.env demoConfig (freshState Script.quiet)).ev
          = failedAttempts demoConfig 0 errs
      ∧ openResults (InitDB Script.env demoConfig (freshState Script.quiet)).ev
          = errs.map .err
      ∧ waits .initDB (InitDB Script.env demoConfig (freshState Script.quiet)).ev
          = (List.range demoConfig.MaxRetries.toNat).map
              (fun j => Duration.mul demoConfig.RetryInterval (((j : Nat) : Int) + 1))
      ∧ (InitDB Script.env demoConfig (freshState Script.quiet)).out
          = .ret (.err (Errorf ("failed to connect to database after "
              ++ toString demoConfig.MaxRetries ++ " retries: ") last))
      ∧ (Errorf ("failed to connect to database after "
              ++ toString demoConfig.MaxRetries ++ " retries: ") last).Unwrap = some last
      ∧ (InitDB Script.env demoConfig (freshState Script.quiet)).st.heap
          = (freshState Script.quiet).heap
      ∧ (InitDB Script.env demoConfig (freshState Script.quiet)).st.DbInstance
          = (freshState Script.quiet).DbInstance :=
  ⟨by decide, by decide,
    InitDB_exhausted Script.env demoConfig (freshState Script.quiet) (by decide) (by decide)⟩

/-- C1 as stated fails on the scenario of the specification (three attempts, one second,
target always unreachable): `InitDB` sleeps three times, not two, and the last event of its
run is the sleep of three seconds that follows the final failed attempt. -/
theorem InitDB_exhausted_counterexample :
    openResults (InitDB Script.env demoConfig (freshState Script.quiet)).ev
      = [.err (.plain "connection refused"), .err (.plain "connection refused"),
          .err (.plain "connection refused")]
    ∧ waits .initDB (InitDB Script.env demoConfig (freshState Script.quiet)).ev
      = [1000000000, 2000000000, 3000000000]
    ∧ (waits .initDB (InitDB Script.env demoConfig (freshState Script.quiet)).ev).length
      ≠ 3 - 1
    ∧ (InitDB Script.env demoConfig (freshState Script.quiet)).ev.getLast?
      = some (.sleep .initDB 3000000000) := by
  decide

end ConnectionClaims

/-! ## The claims about the loop of `Retry` -/

section LoopClaims
variable {σ : Type}

theorem ready_afterSleep (env : Env σ) (dur : Duration) (s : State σ) (h : Ready s) :
    Ready (afterSleep env dur s) := h

/-- What an iteration with a retryable failure adds to the run, on a ready manager: the
context check, the invocation, then a middle part `mid` (the runs of `Reconnect` and of
`GetDB`) that holds no event of `Retry` and exactly one `GetDB` result; on an error of `GetDB`
the loop ends there, on a handle the sleep and the next iteration follow. -/
theorem loop_retry_info (env : Env σ) (ctx : σ → Option GoError)
    (operation : GormDB → σ → Option GoError × σ) (retryInterval : Duration) (rem : Nat)
    (i : Int) (db : GormDB) (lastErr : Option GoError) (s : State σ) (err : GoError)
    (d : Nat) (D : Database) (hE : Established s d D) (hm : 1 ≤ D.config.MaxRetries)
    (hc : ctx s.world = none) (ho : (operation db s.world).1 = some err)
    (hr : isRetryableError err = true) :
    ∃ mid, opResults mid = [] ∧ ctxResults mid = [] ∧ waits .retry mid = []
      ∧ ((∀ e ∈ mid, e.failedProbe = false) → reconnects mid = [d])
      ∧ ((∃ e s2, Retry.loop env ctx operation retryInterval (rem + 1) i db lastErr s
            = ⟨.ret (some e), s2, [.ctxErr none, .operation db (some err)] ++ mid⟩
          ∧ getDBResults mid = [.err e]
          ∧ ∃ ev ∈ mid, ev.failedProbe = true)
        ∨ (∃ db2 s2, Ready s2
          ∧ Retry.loop env ctx operation retryInterval (rem + 1) i db lastErr s
            = (Retry.loop env ctx operation retryInterval rem (i + 1) db2 (some err) s2).pre
                ([.ctxErr none, .operation db (some err)] ++ mid
                  ++ [.sleep .retry (Duration.mul retryInterval (i + 1))])
          ∧ getDBResults mid = [.ok db2])) := by
  have hE1 : Established (afterInvoke operation db s) d D := hE
  obtain ⟨_, r2, r3, r4, _, _⟩ :=
    Reconnect_facts env d D (afterInvoke operation db s) hE1.2 hm
  have hready := Reconnect_ready env d D (afterInvoke operation db s) hE1 hm
  obtain ⟨g, hg, hready2, g3, g4, _⟩ := GetDB_facts env _ hready
  obtain ⟨a1, a2, a3⟩ := not_ofRetry_projections r4
  obtain ⟨b1, b2, b3⟩ := not_ofRetry_projections g4
  obtain ⟨d2, D2, hE2, hm2⟩ := hready
  refine ⟨(Reconnect env d (afterInvoke operation db s)).ev
      ++ (GetDB env (Reconnect env d (afterInvoke operation db s)).st).ev, ?_, ?_, ?_, ?_, ?_⟩
  · rw [opResults_append, a1, b1]; rfl
  · rw [ctxResults_append, a2, b2]; rfl
  · rw [waits_append, a3, b3]; rfl
  · intro hp
    have hU := GetDB_no_failed_probe env _ d2 D2 hE2 hm2
      (fun e he => hp e (List.mem_append_right _ he))
    have hG := GetDB_healthy env _ d2 D2 hE2 hU
    obtain ⟨u1, _⟩ := ofInitDB_projections (unhealthy_ev env D2.DB
      (Reconnect env d (afterInvoke operation db s)).st)
    rw [reconnects_append, r2, hG]
    simp only [reconnects_append, u1, List.nil_append]
    rfl
  · rcases loop_retry env ctx operation retryInterval rem i db lastErr s err d D hE hm hc ho hr
      with ⟨e, hGe, hL⟩ | ⟨db2, hGo, hL⟩
    · left
      rw [hg] at hGe
      simp only [Outcome.ret.injEq] at hGe
      subst hGe
      refine ⟨e, (GetDB env (Reconnect env d (afterInvoke operation db s)).st).st, ?_, ?_, ?_⟩
      · rw [hL, List.append_assoc]
      · rw [getDBResults_append, r3, g3]; rfl
      · obtain ⟨b, hb⟩ := unhealthy_ret env D2.DB
          (Reconnect env d (afterInvoke operation db s)).st
        cases b with
        | false =>
          rw [GetDB_healthy env _ d2 D2 hE2 hb] at hg
          simp at hg
        | true =>
          obtain ⟨ev, hev, hf⟩ := unhealthy_true_failed env D2.DB _ hb
          refine ⟨ev, List.mem_append_right _ ?_, hf⟩
          rcases GetDB_unhealthy env _ d2 D2 hE2 hm2 hb with ⟨_, _, hG⟩ | ⟨_, _, hG, _, _⟩
          · rw [hG]; exact List.mem_append_left _ (List.mem_append_left _ hev)
          · rw [hG]; exact List.mem_append_left _ (List.mem_append_left _ hev)
    · right
      rw [hg] at hGo
      simp only [Outcome.ret.injEq] at hGo
      subst hGo
      refine ⟨db2, afterSleep env (Duration.mul retryInterval (i + 1))
        (GetDB env (Reconnect env d (afterInvoke operation db s)).st).st,
        ready_afterSleep env _ _ hready2, ?_, ?_⟩
      · rw [hL]
        simp only [List.append_assoc]
      · rw [getDBResults_append, r3, g3]; rfl

/-- A loop of `Retry` on a ready manager, in whose run the context is never cancelled, every
`GetDB` gives a handle and every invocation fails with a retryable error: the operation is
invoked once per iteration and the loop returns the error of the last invocation. -/
theorem loop_all_retryable (env : Env σ) (ctx : σ → Option GoError)
    (operation : GormDB → σ → Option GoError × σ) (retryInterval : Duration) (rem : Nat) :
    ∀ (i : Int) (db : GormDB) (lastErr : Option GoError) (s : State σ), Ready s →
      (∀ c ∈ ctxResults (Retry.loop env ctx operation retryInterval rem i db lastErr s).ev,
        c = none) →
      (∀ g ∈ getDBResults (Retry.loop env ctx operation retryInterval rem i db lastErr s).ev,
        g.isOk = true) →
      (∀ o ∈ opResults (Retry.loop env ctx operation retryInterval rem i db lastErr s).ev,
        retryableFailure o = true) →
      (opResults (Retry.loop env ctx operation retryInterval rem i db lastErr s).ev).length
        = rem
      ∧ (Retry.loop env ctx operation retryInterval rem i db lastErr s).out
        = .ret (match (opResults
            (Retry.loop env ctx operation retryInterval rem i db lastErr s).ev).getLast? with
          | some o => o
          | none => lastErr) := by
  induction rem with
  | zero =>
    intro i db lastErr s _ _ _ _
    rw [loop_zero]
    exact ⟨rfl, rfl⟩
  | succ rem ih =>
    intro i db lastErr s hready hctx hget hop
    obtain ⟨d, D, hE, hm⟩ := hready
    cases hc : ctx s.world with
    | some c =>
      exfalso
      rw [loop_cancelled env ctx operation retryInterval rem i db lastErr s c hc] at hctx
      have := hctx (some c) (by simp [ctxResults])
      simp at this
    | none =>
      cases ho : (operation db s.world).1 with
      | none =>
        exfalso
        rw [loop_success env ctx operation retryInterval rem i db lastErr s hc ho] at hop
        have := hop none (by simp [opResults])
        simp [retryableFailure] at this
      | some err =>
        cases hr : isRetryableError err with
        | false =>
          exfalso
          rw [loop_final env ctx operation retryInterval rem i db lastErr s err hc ho hr] at hop
          have := hop (some err) (by simp [opResults])
          simp [retryableFailure, hr] at this
        | true =>
          obtain ⟨mid, m1, m2, _, _, hcase⟩ := loop_retry_info env ctx operation retryInterval
            rem i db lastErr s err d D hE hm hc ho hr
          rcases hcase with ⟨e, s2, hL, hgm, _⟩ | ⟨db2, s2, hready2, hL, hgm⟩
          · exfalso
            rw [hL] at hget
            have := hget (.err e) (by
              simp only [getDBResults_append, hgm]
              simp [getDBResults])
            simp [Result.isOk] at this
          · rw [hL] at hctx hget hop ⊢
            simp only [Run.pre_ev, Run.pre_out, opResults_append, ctxResults_append,
              getDBResults_append] at hctx hget hop ⊢
            obtain ⟨ih1, ih2⟩ := ih (i + 1) db2 (some err) s2 hready2
              (fun c hcm => hctx c (List.mem_append_right _ hcm))
              (fun g hgm2 => hget g (List.mem_append_right _ hgm2))
              (fun o hom => hop o (List.mem_append_right _ hom))
            have hpre : opResults [Event.ctxErr none, Event.operation db (some err)]
                ++ opResults mid ++ opResults [Event.sleep Site.retry
                  (Duration.mul retryInterval (i + 1))] = [some err] := by
              rw [m1]; rfl
            rw [hpre]
            refine ⟨by simp only [List.length_append, List.length_singleton, ih1]; omega, ?_⟩
            rw [ih2]
            cases hl : (opResults (Retry.loop env ctx operation retryInterval rem (i + 1) db2
                (some err) s2).ev) with
            | nil => rfl
            | cons o os =>
              rw [List.getLast?_append]
              cases hl2 : (o :: os).getLast? with
              | none => simp at hl2
              | some x => rfl

/-- A loop of `Retry` on a ready manager with more than `k` iterations left, in whose run the
context is never cancelled, no probe fails, the first `k` invocations fail with retryable
errors and the next one succeeds: the loop returns nil after `k + 1` invocations, `k` calls
of `Reconnect` and `k` sleeps of its own. -/
theorem loop_fails_then_succeeds (env : Env σ) (ctx : σ → Option GoError)
    (operation : GormDB → σ → Option GoError × σ) (retryInterval : Duration) (k : Nat) :
    ∀ (rem : Nat) (i : Int) (db : GormDB) (lastErr : Option GoError) (s : State σ),
      Ready s → k < rem →
      (∀ c ∈ ctxResults (Retry.loop env ctx operation retryInterval rem i db lastErr s).ev,
        c = none) →
      (∀ e ∈ (Retry.loop env ctx operation retryInterval rem i db lastErr s).ev,
        e.failedProbe = false) →
      (∀ j o, (opResults
          (Retry.loop env ctx operation retryInterval rem i db lastErr s).ev)[j]? = some o →
        (j < k → retryableFailure o = true) ∧ (j = k → o = none)) →
      (Retry.loop env ctx operation retryInterval rem i db lastErr s).out = .ret none
      ∧ (opResults (Retry.loop env ctx operation retryInterval rem i db lastErr s).ev).length
          = k + 1
      ∧ (reconnects (Retry.loop env ctx operation retryInterval rem i db lastErr s).ev).length
          = k
      ∧ waits .retry (Retry.loop env ctx operation retryInterval rem i db lastErr s).ev
          = backoffWaits retryInterval i k := by
  induction k with
  | zero =>
    intro rem i db lastErr s hready hk hctx _ hop
    obtain ⟨rem, rfl⟩ : ∃ r, rem = r + 1 := ⟨rem - 1, by omega⟩
    cases hc : ctx s.world with
    | some c =>
      exfalso
      rw [loop_cancelled env ctx operation retryInterval rem i db lastErr s c hc] at hctx
      have := hctx (some c) (by simp [ctxResults])
      simp at this
    | none =>
      obtain ⟨rest, hrest⟩ := loop_ev_head env ctx operation retryInterval rem i db lastErr s hc
      have h0 := (hop 0 (operation db s.world).1 (by
        rw [hrest]; simp [opResults])).2 rfl
      rw [loop_success env ctx operation retryInterval rem i db lastErr s hc h0]
      exact ⟨rfl, rfl, rfl, rfl⟩
  | succ k ih =>
    intro rem i db lastErr s hready hk hctx hprobe hop
    obtain ⟨rem, rfl⟩ : ∃ r, rem = r + 1 := ⟨rem - 1, by omega⟩
    obtain ⟨d, D, hE, hm⟩ := hready
    cases hc : ctx s.world with
    | some c =>
      exfalso
      rw [loop_cancelled env ctx operation retryInterval rem i db lastErr s c hc] at hctx
      have := hctx (some c) (by simp [ctxResults])
      simp at this
    | none =>
      obtain ⟨rest, hrest⟩ := loop_ev_head env ctx operation retryInterval rem i db lastErr s hc
      have h0 := (hop 0 (operation db s.world).1 (by
        rw [hrest]; simp [opResults])).1 (Nat.succ_pos k)
      cases ho : (operation db s.world).1 with
      | none => rw [ho] at h0; simp [retryableFailure] at h0
      | some err =>
        rw [ho] at h0
        have hr : isRetryableError err = true := h0
        obtain ⟨mid, m1, m2, m3, m4, hcase⟩ := loop_retry_info env ctx operation
          retryInterval rem i db lastErr s err d D hE hm hc ho hr
        rcases hcase with ⟨e, s2, hL, _, ev, hev, hf⟩ | ⟨db2, s2, hready2, hL, _⟩
        · exfalso
          rw [hL] at hprobe
          have := hprobe ev (List.mem_append_right _ hev)
          rw [this] at hf
          exact Bool.noConfusion hf
        · rw [hL] at hctx hprobe hop ⊢
          simp only [Run.pre_ev, Run.pre_out, opResults_append, ctxResults_append,
            reconnects_append, waits_append] at hctx hop ⊢
          have hpre : opResults [Event.ctxErr none, Event.operation db (some err)]
              ++ opResults mid ++ opResults [Event.sleep Site.retry
                (Duration.mul retryInterval (i + 1))] = [some err] := by
            rw [m1]; rfl
          rw [hpre] at hop ⊢
          have hmid : reconnects mid = [d] := m4 (fun e he =>
            hprobe e (List.mem_append_left _
              (List.mem_append_left _ (List.mem_append_right _ he))))
          obtain ⟨i1, i2, i3, i4⟩ := ih rem (i + 1) db2 (some err) s2 hready2 (by omega)
            (fun c hcm => hctx c (List.mem_append_right _ hcm))
            (fun e he => hprobe e (List.mem_append_right _ he))
            (fun j o hj => by
              have := hop (j + 1) o (by simpa using hj)
              exact ⟨fun hlt => this.1 (by omega), fun heq => this.2 (by omega)⟩)
          refine ⟨i1, by simp only [List.length_append, List.length_singleton, i2]; omega,
            ?_, ?_⟩
          · simp only [List.length_append, hmid, i3, List.length_singleton]
            simp only [reconnects, List.length_nil]
            omega
          · rw [m3, i4]
            simp [waits, backoffWaits]

/-- C9: an iteration of the loop of `Retry` on a ready manager, with a live context, in which
the operation fails with a retryable error `err`.  `Reconnect` is called and returns, and what
it returns plays no part in what follows: the loop next calls `GetDB`.  When that `GetDB` fails
with `e`, `Retry` returns `e` at once, and the iteration holds no sleep and no other
invocation.  When it gives a handle `db2`, the loop sleeps `retryInterval * (i + 1)`, with `i`
the 0-indexed loop variable, and goes on to the next iteration with `db2`. -/
theorem Retry_loop_after_retryable_failure (env : Env σ) (ctx : σ → Option GoError)
    (operation : GormDB → σ → Option GoError × σ) (retryInterval : Duration) (rem : Nat)
    (i : Int) (db : GormDB) (lastErr : Option GoError) (s : State σ) (err : GoError)
    (d : Nat) (D : Database) (hE : Established s d D) (hm : 1 ≤ D.config.MaxRetries)
    (hc : ctx s.world = none) (ho : (operation db s.world).1 = some err)
    (hr : isRetryableError err = true) :
    (∃ rr, (Reconnect env d (afterInvoke operation db s)).out = .ret rr)
    ∧ ((∃ e, (GetDB env (Reconnect env d (afterInvoke operation db s)).st).out = .ret (.err e)
        ∧ Retry.loop env ctx operation retryInterval (rem + 1) i db lastErr s
          = ⟨.ret (some e), (GetDB env (Reconnect env d (afterInvoke operation db s)).st).st,
              [.ctxErr none, .operation db (some err)]
                ++ (Reconnect env d (afterInvoke operation db s)).ev
                ++ (GetDB env (Reconnect env d (afterInvoke operation db s)).st).ev⟩
        ∧ opResults (Retry.loop env ctx operation retryInterval (rem + 1) i db lastErr s).ev
            = [some err]
        ∧ waits .retry (Retry.loop env ctx operation retryInterval (rem + 1) i db lastErr s).ev
            = [])
      ∨ (∃ db2, (GetDB env (Reconnect env d (afterInvoke operation db s)).st).out
            = .ret (.ok db2)
        ∧ Retry.loop env ctx operation retryInterval (rem + 1) i db lastErr s
          = (Retry.loop env ctx operation retryInterval rem (i + 1) db2 (some err)
              (afterSleep env (Duration.mul retryInterval (i + 1))
                (GetDB env (Reconnect env d (afterInvoke operation db s)).st).st)).pre
              ([.ctxErr none, .operation db (some err)]
                ++ (Reconnect env d (afterInvoke operation db s)).ev
                ++ (GetDB env (Reconnect env d (afterInvoke operation db s)).st).ev
                ++ [.sleep .retry (Duration.mul retryInterval (i + 1))]))) := by
  have hE1 : Established (afterInvoke operation db s) d D := hE
  obtain ⟨r1, _, _, r4, _, _⟩ :=
    Reconnect_facts env d D (afterInvoke operation db s) hE1.2 hm
  have hready := Reconnect_ready env d D (afterInvoke operation db s) hE1 hm
  obtain ⟨_, _, _, _, g4, _⟩ := GetDB_facts env _ hready
  obtain ⟨a1, _, a3⟩ := not_ofRetry_projections r4
  obtain ⟨b1, _, b3⟩ := not_ofRetry_projections g4
  refine ⟨r1, ?_⟩
  rcases loop_retry env ctx operation retryInterval rem i db lastErr s err d D hE hm hc ho hr
    with ⟨e, hGe, hL⟩ | ⟨db2, hGo, hL⟩
  · refine Or.inl ⟨e, hGe, hL, ?_, ?_⟩
    · rw [hL]
      simp only [opResults_append, a1, b1, List.append_nil]
      rfl
    · rw [hL]
      simp only [waits_append, a3, b3, List.append_nil]
      rfl
  · exact Or.inr ⟨db2, hGo, hL⟩

theorem Retry_loop_after_retryable_failure_witness :
    Established (demoState { Script.quiet with
        ops := [some (.plain "connection refused")], opens := [.ok 8] }) 0
      { DB := 7, config := demoConfig }
    ∧ (1 : Int) ≤ demoConfig.MaxRetries
    ∧ Script.ctx { Script.quiet with
        ops := [some (.plain "connection refused")], opens := [.ok 8] } = none
    ∧ (Script.operation 7 { Script.quiet with
        ops := [some (.plain "connection refused")], opens := [.ok 8] }).1
        = some (.plain "connection refused")
    ∧ isRetryableError (.plain "connection refused") = true
    ∧ ∃ rr, (Reconnect Script.env 0 (afterInvoke Script.operation 7
        (demoState { Script.quiet with
          ops := [some (.plain "connection refused")], opens := [.ok 8] }))).out = .ret rr :=
  ⟨⟨rfl, rfl⟩, by decide, rfl, rfl, by decide,
    (Retry_loop_after_retryable_failure Script.env Script.ctx Script.operation 1000000000 2 0 7
      none (demoState { Script.quiet with
        ops := [some (.plain "connection refused")], opens := [.ok 8] })
      (.plain "connection refused") 0 { DB := 7, config := demoConfig } ⟨rfl, rfl⟩
      (by decide) rfl rfl (by decide)).1⟩

/-- C7: on a ready manager, with `maxRetries = n >= 1`, when in the run of `Retry` the
context is never found cancelled, every `GetDB` gives a handle and every invocation of the
operation fails with a retryable error, `Retry` invokes the operation exactly `n` times and
returns, as it is, the error of the last invocation. -/
theorem Retry_exhausted (env : Env σ) (ctx : σ → Option GoError)
    (operation : GormDB → σ → Option GoError × σ) (maxRetries : Int)
    (retryInterval : Duration) (s : State σ)
    (hready : Ready s) (hn : 1 ≤ maxRetries)
    (hctx : ∀ c ∈ ctxResults (Retry env ctx operation maxRetries retryInterval s).ev,
      c = none)
    (hget : ∀ g ∈ getDBResults (Retry env ctx operation maxRetries retryInterval s).ev,
      g.isOk = true)
    (hop : ∀ o ∈ opResults (Retry env ctx operation maxRetries retryInterval s).ev,
      retryableFailure o = true) :
    ((opResults (Retry env ctx operation maxRetries retryInterval s).ev).length : Int)
      = maxRetries
    ∧ ∃ e, (opResults (Retry env ctx operation maxRetries retryInterval s).ev).getLast?
        = some (some e)
      ∧ (Retry env ctx operation maxRetries retryInterval s).out = .ret (some e) := by
  obtain ⟨g, hg, hready2, g3, g4, _⟩ := GetDB_facts env s hready
  obtain ⟨b1, b2, _⟩ := not_ofRetry_projections g4
  rw [Retry_apply, hg] at hctx hget hop ⊢
  cases g with
  | err e =>
    exfalso
    have := hget (.err e) (by simp only [g3]; simp)
    simp [Result.isOk] at this
  | ok db =>
    simp only [Run.pre_ev, Run.pre_out, opResults_append, ctxResults_append,
      getDBResults_append, b1, b2, List.nil_append] at hctx hget hop ⊢
    obtain ⟨l1, l2⟩ := loop_all_retryable env ctx operation retryInterval maxRetries.toNat 0
      db none (GetDB env s).st hready2 hctx
      (fun g hgm => hget g (List.mem_append_right _ hgm)) hop
    refine ⟨by rw [l1]; omega, ?_⟩
    cases hl : (opResults (Retry.loop env ctx operation retryInterval maxRetries.toNat 0 db
        none (GetDB env s).st).ev).getLast? with
    | none =>
      rw [List.getLast?_eq_none_iff] at hl
      rw [hl] at l1
      simp at l1
      omega
    | some o =>
      have hmem := List.mem_of_getLast?_eq_some hl
      have hro := hop o hmem
      cases o with
      | none => simp [retryableFailure] at hro
      | some e =>
        refine ⟨e, rfl, ?_⟩
        rw [l2, hl]

theorem Retry_exhausted_witness :
    Ready (demoState { Script.quiet with
      ops := [some (.plain "connection refused"), some (.plain "dial tcp: i/o timeout")] })
    ∧ (1 : Int) ≤ 2
    ∧ ((opResults (Retry Script.env Script.ctx Script.operation 2 1000000000
        (demoState { Script.quiet with
          ops := [some (.plain "connection refused"),
            some (.plain "dial tcp: i/o timeout")] })).ev).length : Int) = 2
    ∧ ∃ e, (opResults (Retry Script.env Script.ctx Script.operation 2 1000000000
        (demoState { Script.quiet with
          ops := [some (.plain "connection refused"),
            some (.plain "dial tcp: i/o timeout")] })).ev).getLast? = some (some e)
      ∧ (Retry Script.env Script.ctx Script.operation 2 1000000000
        (demoState { Script.quiet with
          ops := [some (.plain "connection refused"),
            some (.plain "dial tcp: i/o timeout")] })).out = .ret (some e) :=
  ⟨⟨0, { DB := 7, config := demoConfig }, ⟨rfl, rfl⟩, by decide⟩, by decide,
    Retry_exhausted Script.env Script.ctx Script.operation 2 1000000000
      (demoState { Script.quiet with
        ops := [some (.plain "connection refused"), some (.plain "dial tcp: i/o timeout")] })
      ⟨0, { DB := 7, config := demoConfig }, ⟨rfl, rfl⟩, by decide⟩ (by decide) (by decide)
      (by decide) (by decide)⟩

/-- C3: on a ready manager, with `maxRetries >= 3`, when in the run of `Retry` the context
is never found cancelled, no liveness probe fails (no `db.DB()`, no `Ping`), the first two
invocations of the operation fail with retryable errors and the third succeeds, `Retry`
returns nil after exactly 3 invocations, exactly 2 calls of `Reconnect` and exactly 2 sleeps of
its own, of durations `retryInterval * 1` and `retryInterval * 2` (products of
`time.Duration`, an `int64`; they are `retryInterval` and `2 * retryInterval` whenever the
double fits in an `int64`).  This holds whether the two calls of `Reconnect` succeed or
fail. -/
theorem Retry_two_failures_then_success (env : Env σ) (ctx : σ → Option GoError)
    (operation : GormDB → σ → Option GoError × σ) (maxRetries : Int)
    (retryInterval : Int) (s : State σ)
    (hready : Ready s) (hn : 3 ≤ maxRetries)
    (hctx : ∀ c ∈ ctxResults (Retry env ctx operation maxRetries retryInterval s).ev,
      c = none)
    (hprobe : ∀ e ∈ (Retry env ctx operation maxRetries retryInterval s).ev,
      e.failedProbe = false)
    (hfail : ∀ o ∈ (opResults (Retry env ctx operation maxRetries retryInterval s).ev).take 2,
      retryableFailure o = true)
    (hsucc : ∀ o ∈ ((opResults
        (Retry env ctx operation maxRetries retryInterval s).ev).drop 2).take 1, o = none) :
    (Retry env ctx operation maxRetries retryInterval s).out = .ret none
    ∧ (opResults (Retry env ctx operation maxRetries retryInterval s).ev).length = 3
    ∧ (reconnects (Retry env ctx operation maxRetries retryInterval s).ev).length = 2
    ∧ waits .retry (Retry env ctx operation maxRetries retryInterval s).ev
        = [Duration.mul retryInterval 1, Duration.mul retryInterval 2]
    ∧ (-(2 ^ 63) ≤ 2 * retryInterval → 2 * retryInterval < 2 ^ 63 →
        waits .retry (Retry env ctx operation maxRetries retryInterval s).ev
          = [retryInterval, 2 * retryInterval]) := by
  have hop : ∀ j o, (opResults (Retry env ctx operation maxRetries retryInterval s).ev)[j]?
      = some o → (j < 2 → retryableFailure o = true) ∧ (j = 2 → o = none) := by
    intro j o hj
    refine ⟨fun hlt => hfail o ?_, fun heq => hsucc o ?_⟩
    · rw [List.mem_iff_getElem?]
      exact ⟨j, by rw [List.getElem?_take_of_lt hlt]; exact hj⟩
    · subst heq
      rw [List.mem_iff_getElem?]
      exact ⟨0, by rw [List.getElem?_take_of_lt (by omega), List.getElem?_drop]; exact hj⟩
  obtain ⟨d, D, hE, hm⟩ := hready
  have hG : ∀ e ∈ (GetDB env s).ev, e ∈ (Retry env ctx operation maxRetries retryInterval s).ev := by
    intro e he
    rw [Retry_apply]
    rcases (GetDB env s).out with (_ | _) | _ | _
    · exact List.mem_append_left _ he
    · exact he
    · exact he
    · exact he
  have hU := GetDB_no_failed_probe env s d D hE hm (fun e he => hprobe e (hG e he))
  have hGet := GetDB_healthy env s d D hE hU
  obtain ⟨u1, _, _, _, _, _, u7⟩ := ofInitDB_projections (unhealthy_ev env D.DB s)
  have hready2 : Ready (GetDB env s).st := by
    rw [hGet]
    exact ⟨d, D, ⟨by rw [unhealthy_inst]; exact hE.1, by rw [unhealthy_heap]; exact hE.2⟩, hm⟩
  have hnr : ∀ e ∈ (GetDB env s).ev, e.ofRetry = false := by
    rw [hGet]
    intro e he
    rcases List.mem_append.1 he with he | he
    · exact u7 e he
    · simp only [List.mem_singleton] at he; subst he; rfl
  obtain ⟨b1, b2, b3⟩ := not_ofRetry_projections hnr
  have hrc : reconnects (GetDB env s).ev = [] := by
    rw [hGet]
    simp only [reconnects_append, u1, List.nil_append]
    rfl
  have hout : (GetDB env s).out = .ret (.ok D.DB) := by rw [hGet]
  rw [Retry_apply, hout] at hctx hprobe hop ⊢
  simp only [Run.pre_ev, Run.pre_out, opResults_append, ctxResults_append, reconnects_append,
    waits_append, b1, b2, b3, hrc, List.nil_append] at hctx hop ⊢
  obtain ⟨l1, l2, l3, l4⟩ := loop_fails_then_succeeds env ctx operation retryInterval 2
    maxRetries.toNat 0 D.DB none (GetDB env s).st hready2 (by omega) hctx
    (fun e he => hprobe e (List.mem_append_right _ he)) hop
  have hw : backoffWaits retryInterval 0 2
      = [Duration.mul retryInterval 1, Duration.mul retryInterval 2] := by
    simp [backoffWaits]
  rw [hw] at l4
  refine ⟨l1, l2, l3, l4, ?_⟩
  intro h1 h2
  rw [l4, Duration.mul_of_fits retryInterval 1 (by omega) (by omega),
    Duration.mul_of_fits retryInterval 2 (by omega) (by omega)]
  simp only [mul_one, List.cons.injEq, and_true, true_and]
  ring

theorem Retry_two_failures_then_success_witness :
    Ready (demoState { Script.quiet with
      opens := [.ok 8, .ok 9],
      ops := [some (.plain "connection refused"), some (.plain "dial tcp: i/o timeout"),
        none] })
    ∧ (3 : Int) ≤ 3
    ∧ (Retry Script.env Script.ctx Script.operation 3 1000000000
        (demoState { Script.quiet with
          opens := [.ok 8, .ok 9],
          ops := [some (.plain "connection refused"), some (.plain "dial tcp: i/o timeout"),
            none] })).out = .ret none
    ∧ (opResults (Retry Script.env Script.ctx Script.operation 3 1000000000
        (demoState { Script.quiet with
          opens := [.ok 8, .ok 9],
          ops := [some (.plain "connection refused"), some (.plain "dial tcp: i/o timeout"),
            none] })).ev).length = 3
    ∧ (reconnects (Retry Script.env Script.ctx Script.operation 3 1000000000
        (demoState { Script.quiet with
          opens := [.ok 8, .ok 9],
          ops := [some (.plain "connection refused"), some (.plain "dial tcp: i/o timeout"),
            none] })).ev).length = 2
    ∧ waits .retry (Retry Script.env Script.ctx Script.operation 3 1000000000
        (demoState { Script.quiet with
          opens := [.ok 8, .ok 9],
          ops := [some (.plain "connection refused"), some (.plain "dial tcp: i/o timeout"),
            none] })).ev = [1000000000, 2000000000] :=
  ⟨⟨0, { DB := 7, config := demoConfig }, ⟨rfl, rfl⟩, by decide⟩, by decide,
    (Retry_two_failures_then_success Script.env Script.ctx Script.operation 3 1000000000
      (demoState { Script.quiet with
        opens := [.ok 8, .ok 9],
        ops := [some (.plain "connection refused"), some (.plain "dial tcp: i/o timeout"),
          none] })
      ⟨0, { DB := 7, config := demoConfig }, ⟨rfl, rfl⟩, by decide⟩ (by decide) (by decide)
      (by decide) (by decide) (by decide)).1,
    (Retry_two_failures_then_success Script.env Script.ctx Script.operation 3 1000000000
      (demoState { Script.quiet with
        opens := [.ok 8, .ok 9],
        ops := [some (.plain "connection refused"), some (.plain "dial tcp: i/o timeout"),
          none] })
      ⟨0, { DB := 7, config := demoConfig }, ⟨rfl, rfl⟩, by decide⟩ (by decide) (by decide)
      (by decide) (by decide) (by decide)).2.1,
    (Retry_two_failures_then_success Script.env Script.ctx Script.operation 3 1000000000
      (demoState { Script.quiet with
        opens := [.ok 8, .ok 9],
        ops := [some (.plain "connection refused"), some (.plain "dial tcp: i/o timeout"),
          none] })
      ⟨0, { DB := 7, config := demoConfig }, ⟨rfl, rfl⟩, by decide⟩ (by decide) (by decide)
      (by decide) (by decide) (by decide)).2.2.1,
    by decide⟩

end LoopClaims

end DatabaseRecovery
